import Mathlib

set_option maxHeartbeats 1000000

/-
Verification development for the `user-notify` repository.

The repository consists of example programs and integration tests driving an
external notification-manager library.  Each example/test flow is embedded as
a deterministic function from an oracle (`World`, supplying the results of all
external calls, the environment, standard input and the platform) to the trace
of external calls it performs (`List Event`) together with its exit outcome
(`FlowExit`).  The data structures of the library that the flows construct
(categories, actions, the notification builder, active-notification handles)
are modelled from the spec, since the library implementation is not part of
the repository sources; the flows themselves are translated line by line from
the Rust sources.
-/

namespace UserNotify

/-- Modelled from the spec: an action attached to a category is either a
simple button (identifier, display title) or a text-input button
(identifier, title, input button title, placeholder).  The library type
`NotificationCategoryAction` is not in the repository sources; the two
variants and their fields are exactly the ones the examples construct. -/
inductive NotificationCategoryAction where
  | Action (identifier : String) (title : String)
  | TextInputAction (identifier : String) (title : String)
      (input_button_title : String) (input_placeholder : String)
  deriving DecidableEq

/-- Modelled from the spec: a category is an identifier together with an
ordered sequence of actions.  The library type `NotificationCategory` is not
in the repository sources. -/
structure NotificationCategory where
  identifier : String
  actions : List NotificationCategoryAction
  deriving DecidableEq

/-- Modelled from the spec: the fluent notification builder with its optional
fields (title, body, subtitle, sound name, thread id, user-info mapping,
category identifier).  The library type `NotificationBuilder` is not in the
repository sources.  The fields whose Rust accessor method carries the same
name are suffixed with `Opt` so the methods below can keep the source names. -/
structure NotificationBuilder where
  titleOpt : Option String := none
  bodyOpt : Option String := none
  subtitleOpt : Option String := none
  soundOpt : Option String := none
  thread_id : Option String := none
  user_info : List (String × String) := []
  category_id : Option String := none
  deriving DecidableEq

def NotificationBuilder.new : NotificationBuilder := {}

def NotificationBuilder.title (b : NotificationBuilder) (s : String) : NotificationBuilder :=
  { b with titleOpt := some s }

def NotificationBuilder.body (b : NotificationBuilder) (s : String) : NotificationBuilder :=
  { b with bodyOpt := some s }

def NotificationBuilder.subtitle (b : NotificationBuilder) (s : String) : NotificationBuilder :=
  { b with subtitleOpt := some s }

def NotificationBuilder.sound (b : NotificationBuilder) (s : String) : NotificationBuilder :=
  { b with soundOpt := some s }

def NotificationBuilder.set_thread_id (b : NotificationBuilder) (s : String) : NotificationBuilder :=
  { b with thread_id := some s }

def NotificationBuilder.set_user_info (b : NotificationBuilder) (m : List (String × String)) : NotificationBuilder :=
  { b with user_info := m }

def NotificationBuilder.set_category_id (b : NotificationBuilder) (s : String) : NotificationBuilder :=
  { b with category_id := some s }

/-- Modelled from the spec: an active-notification handle exposes read-only
access to its user-info mapping.  The library handle type is not in the
repository sources. -/
structure NotificationHandle where
  user_info : List (String × String)
  deriving DecidableEq

def NotificationHandle.get_user_info (h : NotificationHandle) : List (String × String) :=
  h.user_info

/-- Lookup in a user-info mapping, modelling `HashMap::contains_key`. -/
def mapContainsKey (m : List (String × String)) (k : String) : Bool :=
  m.any (fun p => p.1 == k)

/-- Lookup in a user-info mapping, modelling `HashMap::get`. -/
def mapGet (m : List (String × String)) (k : String) : Option String :=
  (m.find? (fun p => p.1 == k)).map (fun p => p.2)

/-- Opaque error value returned by a failing manager call (the library error
type is not in the repository sources; only its presence matters). -/
structure NotifyError where
  msg : String
  deriving DecidableEq

/-- Error produced by awaiting a spawned tokio task that panicked or was
cancelled (`tokio::task::JoinError`). -/
structure JoinError where
  dummy : Unit := ()
  deriving DecidableEq

/-- Exit outcome of a flow: normal completion, a propagated manager error, a
propagated task-join error, or a panic (failed `assert!` / `panic!`). -/
inductive FlowExit where
  | ok
  | err (e : NotifyError)
  | join_err
  | panicked (msg : String)
  deriving DecidableEq

/-- Externally visible step performed by a flow, in program order. -/
inductive Event where
  | create_manager (bundle_id : String)
  | register (categories : List NotificationCategory)
  | ask_permission
  | query_permission_state
  | send (n : NotificationBuilder)
  | get_active
  | sleep_secs (n : Nat)
  | log_perm_success
  | log_perm_failure
  deriving DecidableEq

/-- Oracle for one run of a flow: the platform, environment, standard input,
and the result of every external call the flow may make.  `send_results k`
is the result of the k-th `send_notification` call on the manager. -/
structure World where
  stdin_line : String
  env_test_bundle_id : Option String
  is_macos : Bool
  register_result : Except NotifyError Unit
  permission_state : Except NotifyError Bool
  permission_result : Except NotifyError Bool
  join_permission_ok : Bool
  join_send_ok : Bool
  send_results : Nat → Except NotifyError Unit
  active_result : Except NotifyError (List NotificationHandle)
  timestamp : String

/-- Models the Rust `?` operator on a manager call inside an
`anyhow::Result` function: on `Err` the flow exits immediately with that
error, keeping the trace accumulated so far; on `Ok` it continues. -/
def propagate {α : Type} (tr : List Event) (r : Except NotifyError α)
    (k : α → List Event × FlowExit) : List Event × FlowExit :=
  match r with
  | .error e => (tr, FlowExit.err e)
  | .ok a => k a

/-- Identifiers of a list of categories. -/
def catIds (cats : List NotificationCategory) : List String :=
  cats.map (fun c => c.identifier)

/-- Scans a trace left to right keeping the set of category identifiers seen
in `register` events; every `send` event whose notification carries a
category identifier must find it among the identifiers registered earlier. -/
def sendsCoveredAux : List String → List Event → Bool
  | _, [] => true
  | reg, Event.register cats :: rest => sendsCoveredAux (reg ++ catIds cats) rest
  | reg, Event.send n :: rest =>
      (match n.category_id with
       | some c => reg.contains c
       | none => true) && sendsCoveredAux reg rest
  | reg, _ :: rest => sendsCoveredAux reg rest

/-- Every notification sent in the trace references only categories included
in an earlier `register` event. -/
def sendsCovered (tr : List Event) : Bool :=
  sendsCoveredAux [] tr

def isSimpleAction : NotificationCategoryAction → Bool
  | NotificationCategoryAction.Action _ _ => true
  | _ => false

def isTextInputAction : NotificationCategoryAction → Bool
  | NotificationCategoryAction.TextInputAction _ _ _ _ => true
  | _ => false

def isSendEvent : Event → Bool
  | Event.send _ => true
  | _ => false

def isRegisterEvent : Event → Bool
  | Event.register _ => true
  | _ => false

def isGetActiveEvent : Event → Bool
  | Event.get_active => true
  | _ => false

def isAskPermissionEvent : Event → Bool
  | Event.ask_permission => true
  | _ => false

def isPermFailureLog : Event → Bool
  | Event.log_perm_failure => true
  | _ => false

def isPermSuccessLog : Event → Bool
  | Event.log_perm_success => true
  | _ => false

def countSends (tr : List Event) : Nat := tr.countP isSendEvent

def countRegisters (tr : List Event) : Nat := tr.countP isRegisterEvent

def countGetActive (tr : List Event) : Nat := tr.countP isGetActiveEvent

def countAsks (tr : List Event) : Nat := tr.countP isAskPermissionEvent

def countPermFailureLogs (tr : List Event) : Nat := tr.countP isPermFailureLog

def countPermSuccessLogs (tr : List Event) : Nat := tr.countP isPermSuccessLog

/-- Bundle identifier a flow handed to `get_notification_manager`, read off
its trace (all flows create the manager first). -/
def usedBundleId : List Event → Option String
  | Event.create_manager b :: _ => some b
  | _ => none

end UserNotify

open UserNotify

/-
Flows of `tests/integration_tests.rs`, translated statement by statement.
-/
namespace IntegrationTests

def DEFAULT_BUNDLE_ID : String := "ai.gety"

def ACTION_CATEGORY_ID : String := "app.category.action"

def TEXT_INPUT_CATEGORY_ID : String := "app.category.textinput"

/-- Translation of `get_test_bundle_id`: the `TEST_BUNDLE_ID` environment
variable, falling back to `DEFAULT_BUNDLE_ID` when unset. -/
def get_test_bundle_id (w : World) : String :=
  match w.env_test_bundle_id with
  | some v => v
  | none => DEFAULT_BUNDLE_ID

/-- Translation of `create_test_categories`. -/
def create_test_categories : List NotificationCategory :=
  [ { identifier := ACTION_CATEGORY_ID
      actions :=
        [ NotificationCategoryAction.Action (ACTION_CATEGORY_ID ++ ".button.submit") "Submit"
        , NotificationCategoryAction.Action (ACTION_CATEGORY_ID ++ ".button.cancel") "Cancel"
        , NotificationCategoryAction.Action (ACTION_CATEGORY_ID ++ ".button.detail") "Detail" ] }
  , { identifier := TEXT_INPUT_CATEGORY_ID
      actions :=
        [ NotificationCategoryAction.TextInputAction (TEXT_INPUT_CATEGORY_ID ++ ".button.send")
            "Reply" "Send" "type your message here" ] } ]

/-- Translation of `test_notification_manager_creation`: create the manager
and return `Ok(())`. -/
def test_notification_manager_creation (w : World) : List Event × FlowExit :=
  ([Event.create_manager (get_test_bundle_id w)], FlowExit.ok)

/-- Translation of `test_category_registration`: create the manager and
register the test categories, propagating a registration error by `?`. -/
def test_category_registration (w : World) : List Event × FlowExit :=
  let tr := [Event.create_manager (get_test_bundle_id w),
             Event.register create_test_categories]
  propagate tr w.register_result fun _ =>
  (tr, FlowExit.ok)

/-- Translation of `test_permission_request`.  The whole test carries
`cfg(target_os = "macos")`: on any other platform it is not compiled, which
is modelled as an empty run.  On macOS it registers the categories, requests
permission and matches on the result, logging success or a warning, and
returns `Ok(())` either way. -/
def test_permission_request (w : World) : List Event × FlowExit :=
  if w.is_macos then
    let tr := [Event.create_manager (get_test_bundle_id w),
               Event.register create_test_categories]
    propagate tr w.register_result fun _ =>
    let tr := tr ++ [Event.ask_permission]
    match w.permission_result with
    | .ok _ => (tr ++ [Event.log_perm_success], FlowExit.ok)
    | .error _ => (tr ++ [Event.log_perm_failure], FlowExit.ok)
  else ([], FlowExit.ok)

/-- Translation of `test_basic_notification_send`. -/
def test_basic_notification_send (w : World) : List Event × FlowExit :=
  let tr := [Event.create_manager (get_test_bundle_id w),
             Event.register create_test_categories]
  propagate tr w.register_result fun _ =>
  let n := NotificationBuilder.new.title "Test Basic Notification"
    |>.body "This is a basic test notification"
    |>.set_thread_id "test-thread-basic"
    |>.set_category_id ACTION_CATEGORY_ID
  let tr := tr ++ [Event.send n]
  propagate tr (w.send_results 0) fun _ =>
  (tr, FlowExit.ok)

/-- Translation of `test_notification_with_user_info`. -/
def test_notification_with_user_info (w : World) : List Event × FlowExit :=
  let tr := [Event.create_manager (get_test_bundle_id w),
             Event.register create_test_categories]
  propagate tr w.register_result fun _ =>
  let user_info := [("test_key", "test_value"), ("notification_type", "user_info_test")]
  let n := NotificationBuilder.new.title "Test Notification with User Info"
    |>.body "This notification contains user info"
    |>.set_thread_id "test-thread-userinfo"
    |>.set_user_info user_info
    |>.set_category_id TEXT_INPUT_CATEGORY_ID
  let tr := tr ++ [Event.send n]
  propagate tr (w.send_results 0) fun _ =>
  (tr, FlowExit.ok)

/-- Translation of `test_get_active_notifications`: register, send one
notification with user info, sleep one second, then list the active
notifications (logging them only). -/
def test_get_active_notifications (w : World) : List Event × FlowExit :=
  let tr := [Event.create_manager (get_test_bundle_id w),
             Event.register create_test_categories]
  propagate tr w.register_result fun _ =>
  let user_info := [("active_test", "true")]
  let n := NotificationBuilder.new.title "Active Notification Test"
    |>.body "This notification is for testing active notifications"
    |>.set_thread_id "test-thread-active"
    |>.set_user_info user_info
    |>.set_category_id ACTION_CATEGORY_ID
  let tr := tr ++ [Event.send n]
  propagate tr (w.send_results 0) fun _ =>
  let tr := tr ++ [Event.sleep_secs 1, Event.get_active]
  propagate tr w.active_result fun _ =>
  (tr, FlowExit.ok)

/-- Translation of `test_notification_verification`: register, send a
notification carrying `verification_key -> verification_value`, sleep two
seconds, list active notifications, look for a handle whose user info
contains `verification_key`; if found, `assert_eq!` its value against
`verification_value`, otherwise `panic!`. -/
def test_notification_verification (w : World) : List Event × FlowExit :=
  let tr := [Event.create_manager (get_test_bundle_id w),
             Event.register create_test_categories]
  propagate tr w.register_result fun _ =>
  let user_info := [("verification_key", "verification_value"), ("test_id", "verification_test")]
  let n := NotificationBuilder.new.title "Verification Test Notification"
    |>.body "This notification is for verification testing"
    |>.set_thread_id "test-thread-verify"
    |>.set_user_info user_info
    |>.set_category_id TEXT_INPUT_CATEGORY_ID
  let tr := tr ++ [Event.send n]
  propagate tr (w.send_results 0) fun _ =>
  let tr := tr ++ [Event.sleep_secs 2, Event.get_active]
  propagate tr w.active_result fun active =>
  match active.find? (fun h => mapContainsKey h.get_user_info "verification_key") with
  | some h =>
      if mapGet h.get_user_info "verification_key" == some "verification_value" then
        (tr, FlowExit.ok)
      else (tr, FlowExit.panicked "assertion failed: verification_key value mismatch")
  | none => (tr, FlowExit.panicked "Should exist notification containing verification_key")

/-- Translation of `test_integration_full_flow`: register, request permission
on macOS only (a failure is logged as a warning and the flow continues),
send two notifications, sleep two seconds, list active notifications and
`assert!` one of them carries the `integration_test` key. -/
def test_integration_full_flow (w : World) : List Event × FlowExit :=
  let tr := [Event.create_manager (get_test_bundle_id w),
             Event.register create_test_categories]
  propagate tr w.register_result fun _ =>
  let tr := if w.is_macos then
      tr ++ [Event.ask_permission,
        match w.permission_result with
        | .ok _ => Event.log_perm_success
        | .error _ => Event.log_perm_failure]
    else tr
  let n1 := NotificationBuilder.new.title "Integration Test - First"
    |>.body "First notification in integration test"
    |>.set_thread_id "integration-thread-1"
    |>.set_category_id ACTION_CATEGORY_ID
  let tr := tr ++ [Event.send n1]
  propagate tr (w.send_results 0) fun _ =>
  let user_info := [("integration_test", "full_flow"), ("step", "4")]
  let n2 := NotificationBuilder.new.title "Integration Test - Second"
    |>.body "Second notification with user info"
    |>.set_thread_id "integration-thread-2"
    |>.set_user_info user_info
    |>.set_category_id TEXT_INPUT_CATEGORY_ID
  let tr := tr ++ [Event.send n2]
  propagate tr (w.send_results 1) fun _ =>
  let tr := tr ++ [Event.sleep_secs 2, Event.get_active]
  propagate tr w.active_result fun active =>
  match active.find? (fun h => mapContainsKey h.get_user_info "integration_test") with
  | some _ => (tr, FlowExit.ok)
  | none => (tr, FlowExit.panicked "Should exist notification containing integration_test key")

/-- Translation of `test_long_text_notification`: create the manager and
immediately send a long-text notification referencing
`ACTION_CATEGORY_ID` — without any `register` call. -/
def test_long_text_notification (w : World) : List Event × FlowExit :=
  let tr := [Event.create_manager (get_test_bundle_id w)]
  let n := NotificationBuilder.new.title "📄 Long Text Test - This is a very long title that might get truncated or wrapped depending on the system notification display limits"
    |>.body "这是一个超长文本测试通知。This is a very long text notification test to see how the notification system handles extremely long content. We want to test if the text gets truncated, wrapped, or displayed in some other way. The notification system should handle this gracefully without breaking or causing issues. 这个通知包含了中英文混合的超长文本内容，用来测试通知系统对于长文本的处理能力。We\x27re testing various scenarios: very long titles, very long body text, mixed languages (Chinese and English), special characters, emoji 🎉🔥💯, and other edge cases that might occur in real-world usage. This helps ensure our notification library is robust and can handle different types of content gracefully."
    |>.subtitle "📏 Subtitle: Testing how subtitles work with extremely long notification content and whether they get proper formatting"
    |>.sound "default"
    |>.set_thread_id "test-thread-long-text"
    |>.set_category_id ACTION_CATEGORY_ID
  let tr := tr ++ [Event.send n]
  propagate tr (w.send_results 0) fun _ =>
  (tr, FlowExit.ok)

end IntegrationTests

/-
Flow of `examples/test.rs` (the interactive example), translated statement by
statement.
-/
namespace ExampleTest

def DEFAULT_BUNDLE_ID : String := "ai.gety"

def ACTION_CATEGORY_ID : String := "app.category.action"

def TEXT_INPUT_CATEGORY_ID : String := "app.category.textinput"

/-- Whitespace predicate used by `str::trim`.  Rust trims Unicode
`White_Space` characters; the embedding uses the Lean `Char.isWhitespace`,
which covers the ASCII subset occurring in the flows. -/
def rustIsWhitespace (c : Char) : Bool := c.isWhitespace

/-- List-level translation of `str::trim`: drop whitespace from the front,
then from the back. -/
def trimChars (s : List Char) : List Char :=
  (((s.dropWhile rustIsWhitespace).reverse.dropWhile rustIsWhitespace)).reverse

/-- String-level `str::trim`. -/
def rustTrim (s : String) : String := String.mk (trimChars s.data)

/-- Translation of the bundle-id selection in `main` (`examples/test.rs`):
the line obtained from `read_line` is trimmed; if the trimmed string is
empty the literal default is used, otherwise the trimmed string itself. -/
def bundle_id_of (line : String) : String :=
  if (rustTrim line).data.isEmpty then DEFAULT_BUNDLE_ID else rustTrim line

/-- Translation of the `categories` vector built in `main`. -/
def categories : List NotificationCategory :=
  [ { identifier := ACTION_CATEGORY_ID
      actions :=
        [ NotificationCategoryAction.Action (ACTION_CATEGORY_ID ++ ".button.submit") "Submit"
        , NotificationCategoryAction.Action (ACTION_CATEGORY_ID ++ ".button.cancel") "Cancel"
        , NotificationCategoryAction.Action (ACTION_CATEGORY_ID ++ ".button.detail") "Detail" ] }
  , { identifier := TEXT_INPUT_CATEGORY_ID
      actions :=
        [ NotificationCategoryAction.TextInputAction (TEXT_INPUT_CATEGORY_ID ++ ".button.send")
            "Reply" "Send" "type your message here" ] } ]

/-- First notification built in `main`: title `my title`, body `my body`,
thread id `thread-id`, category `app.category.action`. -/
def notification1 : NotificationBuilder :=
  NotificationBuilder.new.title "my title"
    |>.body "my body"
    |>.set_thread_id "thread-id"
    |>.set_category_id ACTION_CATEGORY_ID

/-- Second notification built in `main`: same title and body, user info
`hey -> hi`, category `app.category.textinput`. -/
def notification2 : NotificationBuilder :=
  NotificationBuilder.new.title "my title"
    |>.body "my body"
    |>.set_thread_id "thread-id"
    |>.set_user_info [("hey", "hi")]
    |>.set_category_id TEXT_INPUT_CATEGORY_ID

/-- Translation of `main` in `examples/test.rs`.  The bundle id comes from
standard input (no environment lookup).  On macOS the permission request runs
in a spawned task; the `if let Err` only catches the join error, the inner
permission result is bound and discarded, and both branches fall through to
the sends.  The second send also runs in a spawned task and is awaited with
`??`, so both a join error and an inner send error abort the flow.  After a
two-second sleep the active notifications are listed and the flow
`assert!`s that one of them carries the `hey` key.  The final `ctrl_c` wait
performs no manager call and is not recorded. -/
def main (w : World) : List Event × FlowExit :=
  let bid := bundle_id_of w.stdin_line
  let tr := [Event.create_manager bid, Event.register categories]
  propagate tr w.register_result fun _ =>
  let tr := if w.is_macos then
      let joined : Except JoinError (Except NotifyError Bool) :=
        if w.join_permission_ok then Except.ok w.permission_result else Except.error {}
      match joined with
      | .error _ => tr ++ [Event.ask_permission, Event.log_perm_failure]
      | .ok _ => tr ++ [Event.ask_permission, Event.log_perm_success]
    else tr
  let tr := tr ++ [Event.send notification1]
  propagate tr (w.send_results 0) fun _ =>
  let tr := tr ++ [Event.send notification2]
  let joined : Except JoinError (Except NotifyError Unit) :=
    if w.join_send_ok then Except.ok (w.send_results 1) else Except.error {}
  match joined with
  | .error _ => (tr, FlowExit.join_err)
  | .ok inner =>
    propagate tr inner fun _ =>
    let tr := tr ++ [Event.sleep_secs 2, Event.get_active]
    propagate tr w.active_result fun active =>
    match active.find? (fun h => mapContainsKey h.get_user_info "hey") with
    | some _ => (tr, FlowExit.ok)
    | none => (tr, FlowExit.panicked "Should exist notification containing hey key")

end ExampleTest

/-
Flow of `examples/test_basic_notification/src/main.rs`.
-/
namespace ExampleBasic

def DEFAULT_BUNDLE_ID : String := "ai.gety.test.basic"

def ACTION_CATEGORY_ID : String := "app.category.action"

/-- Translation of `get_test_bundle_id` of the basic-notification example. -/
def get_test_bundle_id (w : World) : String :=
  match w.env_test_bundle_id with
  | some v => v
  | none => DEFAULT_BUNDLE_ID

/-- Translation of `create_test_categories` of the basic-notification
example: the single action category with three buttons. -/
def create_test_categories : List NotificationCategory :=
  [ { identifier := ACTION_CATEGORY_ID
      actions :=
        [ NotificationCategoryAction.Action (ACTION_CATEGORY_ID ++ ".button.submit") "Submit"
        , NotificationCategoryAction.Action (ACTION_CATEGORY_ID ++ ".button.cancel") "Cancel"
        , NotificationCategoryAction.Action (ACTION_CATEGORY_ID ++ ".button.detail") "Detail" ] }
  ]

/-- Translation of `main` in the basic-notification example.  It registers
the category, checks the permission state with `?`, and — on every
platform, there is no `cfg` here — requests permission with `?` when the
state is not granted; a denied grant ends the flow early with `Ok(())`.
Then it sends three notifications separated by sleeps. -/
def main (w : World) : List Event × FlowExit :=
  let tr := [Event.create_manager (get_test_bundle_id w),
             Event.register create_test_categories]
  propagate tr w.register_result fun _ =>
  let tr := tr ++ [Event.query_permission_state]
  propagate tr w.permission_state fun has_permission =>
  let rest : List Event → List Event × FlowExit := fun tr =>
    let n1 := NotificationBuilder.new.title "🔊 Test Basic Notification"
      |>.body "This notification should have sound and appear in the top-right corner!"
      |>.sound "default"
      |>.set_thread_id "test-thread-basic"
      |>.set_category_id ACTION_CATEGORY_ID
    let tr := tr ++ [Event.send n1]
    propagate tr (w.send_results 0) fun _ =>
    let tr := tr ++ [Event.sleep_secs 3]
    let n2 := NotificationBuilder.new.title "🔔 Second Notification"
      |>.body "This is the second test notification"
      |>.subtitle "With subtitle"
      |>.sound "default"
      |>.set_thread_id "test-thread-basic-2"
      |>.set_category_id ACTION_CATEGORY_ID
    let tr := tr ++ [Event.send n2]
    propagate tr (w.send_results 1) fun _ =>
    let tr := tr ++ [Event.sleep_secs 3]
    let n3 := NotificationBuilder.new.title "📄 Long Text Test - This is a very long title that might get truncated or wrapped depending on the system notification display limits"
      |>.body "这是一个超长文本测试通知。This is a very long text notification test to see how the notification system handles extremely long content. We want to test if the text gets truncated, wrapped, or displayed in some other way. The notification system should handle this gracefully without breaking or causing issues. 这个通知包含了中英文混合的超长文本内容，用来测试通知系统对于长文本的处理能力。We\x27re testing various scenarios: very long titles, very long body text, mixed languages (Chinese and English), special characters, emoji 🎉🔥💯, and other edge cases that might occur in real-world usage. This helps ensure our notification library is robust and can handle different types of content gracefully."
      |>.subtitle "📏 Subtitle: Testing how subtitles work with extremely long notification content and whether they get proper formatting"
      |>.sound "default"
      |>.set_thread_id "test-thread-long-text"
      |>.set_category_id ACTION_CATEGORY_ID
    let tr := tr ++ [Event.send n3]
    propagate tr (w.send_results 2) fun _ =>
    (tr ++ [Event.sleep_secs 10], FlowExit.ok)
  if !has_permission then
    let tr := tr ++ [Event.ask_permission]
    propagate tr w.permission_result fun granted =>
    if granted then rest tr else (tr, FlowExit.ok)
  else rest tr

end ExampleBasic

/-
Flow of `examples/test_permission_request/src/main.rs`.
-/
namespace ExamplePermission

def DEFAULT_BUNDLE_ID : String := "ai.gety.test.permission"

def ACTION_CATEGORY_ID : String := "app.category.action"

/-- Translation of `get_test_bundle_id` of the permission-request example. -/
def get_test_bundle_id (w : World) : String :=
  match w.env_test_bundle_id with
  | some v => v
  | none => DEFAULT_BUNDLE_ID

/-- Translation of `create_test_categories` of the permission-request
example: the action category with two buttons. -/
def create_test_categories : List NotificationCategory :=
  [ { identifier := ACTION_CATEGORY_ID
      actions :=
        [ NotificationCategoryAction.Action (ACTION_CATEGORY_ID ++ ".button.submit") "Submit"
        , NotificationCategoryAction.Action (ACTION_CATEGORY_ID ++ ".button.cancel") "Cancel" ] }
  ]

/-- Translation of `main` in the permission-request example: register, then
on macOS request permission and match on the result — an `Err` is printed
and returned, so a permission failure is fatal here. -/
def main (w : World) : List Event × FlowExit :=
  let tr := [Event.create_manager (get_test_bundle_id w),
             Event.register create_test_categories]
  propagate tr w.register_result fun _ =>
  if w.is_macos then
    let tr := tr ++ [Event.ask_permission]
    match w.permission_result with
    | .ok _ => (tr ++ [Event.log_perm_success], FlowExit.ok)
    | .error e => (tr ++ [Event.log_perm_failure], FlowExit.err e)
  else (tr, FlowExit.ok)

end ExamplePermission

/-
Flow of `examples/test_active_notifications/src/main.rs`.
-/
namespace ExampleActive

def DEFAULT_BUNDLE_ID : String := "ai.gety.test.active"

def ACTION_CATEGORY_ID : String := "app.category.action"

/-- Translation of `get_test_bundle_id` of the active-notifications
example. -/
def get_test_bundle_id (w : World) : String :=
  match w.env_test_bundle_id with
  | some v => v
  | none => DEFAULT_BUNDLE_ID

/-- Translation of `create_test_categories` of the active-notifications
example. -/
def create_test_categories : List NotificationCategory :=
  [ { identifier := ACTION_CATEGORY_ID
      actions :=
        [ NotificationCategoryAction.Action (ACTION_CATEGORY_ID ++ ".button.submit") "Submit"
        , NotificationCategoryAction.Action (ACTION_CATEGORY_ID ++ ".button.cancel") "Cancel"
        , NotificationCategoryAction.Action (ACTION_CATEGORY_ID ++ ".button.detail") "Detail" ] }
  ]

/-- Translation of `main` in the active-notifications example: register,
send two notifications with user info separated by a sleep, sleep again,
list the active notifications and filter them (logging only, no assertion).
-/
def main (w : World) : List Event × FlowExit :=
  let tr := [Event.create_manager (get_test_bundle_id w),
             Event.register create_test_categories]
  propagate tr w.register_result fun _ =>
  let n1 := NotificationBuilder.new.title "Active Test - First Notification"
    |>.body "This is the first notification for active testing"
    |>.set_thread_id "test-thread-active-1"
    |>.set_user_info [("notification_id", "first"), ("test_type", "active_test")]
    |>.set_category_id ACTION_CATEGORY_ID
  let tr := tr ++ [Event.send n1]
  propagate tr (w.send_results 0) fun _ =>
  let tr := tr ++ [Event.sleep_secs 2]
  let n2 := NotificationBuilder.new.title "Active Test - Second Notification"
    |>.body "This is the second notification for active testing"
    |>.set_thread_id "test-thread-active-2"
    |>.set_user_info [("notification_id", "second"), ("test_type", "active_test")]
    |>.set_category_id ACTION_CATEGORY_ID
  let tr := tr ++ [Event.send n2]
  propagate tr (w.send_results 1) fun _ =>
  let tr := tr ++ [Event.sleep_secs 3, Event.get_active]
  propagate tr w.active_result fun _ =>
  (tr, FlowExit.ok)

end ExampleActive

/-
Flow of `examples/test_full_integration/src/main.rs`.
-/
namespace ExampleFull

def DEFAULT_BUNDLE_ID : String := "ai.gety.test.full"

def ACTION_CATEGORY_ID : String := "app.category.action"

def TEXT_INPUT_CATEGORY_ID : String := "app.category.textinput"

/-- Translation of `get_test_bundle_id` of the full-integration example. -/
def get_test_bundle_id (w : World) : String :=
  match w.env_test_bundle_id with
  | some v => v
  | none => DEFAULT_BUNDLE_ID

/-- Translation of `create_test_categories` of the full-integration
example. -/
def create_test_categories : List NotificationCategory :=
  [ { identifier := ACTION_CATEGORY_ID
      actions :=
        [ NotificationCategoryAction.Action (ACTION_CATEGORY_ID ++ ".button.submit") "Submit"
        , NotificationCategoryAction.Action (ACTION_CATEGORY_ID ++ ".button.cancel") "Cancel"
        , NotificationCategoryAction.Action (ACTION_CATEGORY_ID ++ ".button.detail") "Detail" ] }
  , { identifier := TEXT_INPUT_CATEGORY_ID
      actions :=
        [ NotificationCategoryAction.TextInputAction (TEXT_INPUT_CATEGORY_ID ++ ".button.send")
            "Reply" "Send" "Type your message here..." ] } ]

/-- Translation of `main` in the full-integration example: register; on
macOS request permission and match on the result, a failure being printed
and the flow continuing; send a basic notification, then an interactive one
carrying user info with a timestamp; list the active notifications and
filter them (no assertion); send a completion notification. -/
def main (w : World) : List Event × FlowExit :=
  let tr := [Event.create_manager (get_test_bundle_id w),
             Event.register create_test_categories]
  propagate tr w.register_result fun _ =>
  let tr := if w.is_macos then
      tr ++ [Event.ask_permission,
        match w.permission_result with
        | .ok _ => Event.log_perm_success
        | .error _ => Event.log_perm_failure]
    else tr
  let n1 := NotificationBuilder.new.title "Integration Test - Basic"
    |>.body "This is a basic notification with action buttons"
    |>.set_thread_id "integration-thread-basic"
    |>.set_category_id ACTION_CATEGORY_ID
  let tr := tr ++ [Event.send n1]
  propagate tr (w.send_results 0) fun _ =>
  let tr := tr ++ [Event.sleep_secs 2]
  let user_info := [("integration_test", "full_flow"), ("step", "4"), ("timestamp", w.timestamp)]
  let n2 := NotificationBuilder.new.title "Integration Test - Interactive"
    |>.body "This notification has text input - try replying to it!"
    |>.set_thread_id "integration-thread-interactive"
    |>.set_user_info user_info
    |>.set_category_id TEXT_INPUT_CATEGORY_ID
  let tr := tr ++ [Event.send n2]
  propagate tr (w.send_results 1) fun _ =>
  let tr := tr ++ [Event.sleep_secs 3, Event.get_active]
  propagate tr w.active_result fun _ =>
  let n3 := NotificationBuilder.new.title "Integration Test Complete! 🎉"
    |>.body "All notification features have been tested successfully. Check your notification center!"
    |>.set_thread_id "integration-thread-complete"
    |>.set_category_id ACTION_CATEGORY_ID
  let tr := tr ++ [Event.send n3]
  propagate tr (w.send_results 2) fun _ =>
  (tr ++ [Event.sleep_secs 30], FlowExit.ok)

end ExampleFull

/-
Flow of `examples/test_interactive_notification/src/main.rs`.
-/
namespace ExampleInteractive

def DEFAULT_BUNDLE_ID : String := "ai.gety.test.interactive"

def ACTION_CATEGORY_ID : String := "app.category.action"

def TEXT_INPUT_CATEGORY_ID : String := "app.category.textinput"

/-- Translation of `get_test_bundle_id` of the interactive-notification
example. -/
def get_test_bundle_id (w : World) : String :=
  match w.env_test_bundle_id with
  | some v => v
  | none => DEFAULT_BUNDLE_ID

/-- Translation of `create_test_categories` of the interactive-notification
example: the action category with two buttons and the text-input category. -/
def create_test_categories : List NotificationCategory :=
  [ { identifier := ACTION_CATEGORY_ID
      actions :=
        [ NotificationCategoryAction.Action (ACTION_CATEGORY_ID ++ ".button.submit") "Submit"
        , NotificationCategoryAction.Action (ACTION_CATEGORY_ID ++ ".button.cancel") "Cancel" ] }
  , { identifier := TEXT_INPUT_CATEGORY_ID
      actions :=
        [ NotificationCategoryAction.TextInputAction (TEXT_INPUT_CATEGORY_ID ++ ".button.send")
            "Reply" "Send" "Type your message here..." ] } ]

/-- Translation of `main` in the interactive-notification example: register,
send an action-button notification, sleep, send a text-input notification
carrying user info with a timestamp, sleep. -/
def main (w : World) : List Event × FlowExit :=
  let tr := [Event.create_manager (get_test_bundle_id w),
             Event.register create_test_categories]
  propagate tr w.register_result fun _ =>
  let n1 := NotificationBuilder.new.title "Interactive Test - Action Buttons"
    |>.body "This notification has action buttons. Try clicking them!"
    |>.set_thread_id "test-thread-actions"
    |>.set_category_id ACTION_CATEGORY_ID
  let tr := tr ++ [Event.send n1]
  propagate tr (w.send_results 0) fun _ =>
  let tr := tr ++ [Event.sleep_secs 3]
  let n2 := NotificationBuilder.new.title "Interactive Test - Text Input"
    |>.body "This notification allows text input. Try replying to it!"
    |>.set_thread_id "test-thread-textinput"
    |>.set_user_info [("test_type", "text_input"), ("timestamp", w.timestamp)]
    |>.set_category_id TEXT_INPUT_CATEGORY_ID
  let tr := tr ++ [Event.send n2]
  propagate tr (w.send_results 1) fun _ =>
  (tr ++ [Event.sleep_secs 30], FlowExit.ok)

end ExampleInteractive

/-
Concrete oracles used to evaluate the flows on explicit inputs.
-/

/-- Oracle where every external call succeeds, the permission is granted, no
environment variable is set, standard input is empty, the platform is macOS
and the active-notification list is empty. -/
def okWorld : World :=
  { stdin_line := ""
    env_test_bundle_id := none
    is_macos := true
    register_result := Except.ok ()
    permission_state := Except.ok true
    permission_result := Except.ok true
    join_permission_ok := true
    join_send_ok := true
    send_results := fun _ => Except.ok ()
    active_result := Except.ok []
    timestamp := "2025-01-01T00:00:00Z" }

/-- Oracle identical to `okWorld` except that the `TEST_BUNDLE_ID`
environment variable is set to `custom.bundle`. -/
def envOverrideWorld : World :=
  { okWorld with env_test_bundle_id := some "custom.bundle" }

/-- Oracle where the first-time permission request fails and everything else
succeeds. -/
def permDeniedWorld : World :=
  { okWorld with permission_result := Except.error { msg := "permission denied" } }

/-- Oracle where the register call fails and everything else succeeds. -/
def regFailWorld : World :=
  { okWorld with register_result := Except.error { msg := "bad category" } }

/-- Oracle where every send fails and everything else succeeds. -/
def sendFailWorld : World :=
  { okWorld with send_results := fun _ => Except.error { msg := "transport error" } }

/-- Oracle where the first send succeeds and every later send fails,
everything else succeeding. -/
def laterSendFailWorld : World :=
  { okWorld with
    send_results := fun k =>
      match k with
      | 0 => Except.ok ()
      | _ => Except.error { msg := "transport error" } }

/-- Oracle where listing the active notifications fails and everything else
succeeds. -/
def activeFailWorld : World :=
  { okWorld with active_result := Except.error { msg := "enumeration failed" } }

/-- Handle whose user info carries the key `hey` with a value different
from `hi`. -/
def heyWrongHandle : NotificationHandle := { user_info := [("hey", "ho")] }

/-- Oracle where every call succeeds and the active-notification list holds
exactly `heyWrongHandle`. -/
def heyWrongWorld : World :=
  { okWorld with active_result := Except.ok [heyWrongHandle] }

/-- Handle carrying exactly `hey -> hi`. -/
def heyRightHandle : NotificationHandle := { user_info := [("hey", "hi")] }

/-- Oracle where every call succeeds and the active-notification list holds
exactly `heyRightHandle`. -/
def heyRightWorld : World :=
  { okWorld with active_result := Except.ok [heyRightHandle] }

/-- Handle carrying `verification_key -> verification_value`. -/
def verificationHandle : NotificationHandle :=
  { user_info := [("verification_key", "verification_value")] }

/-- Oracle where every call succeeds and the active-notification list holds
exactly `verificationHandle`. -/
def verificationWorld : World :=
  { okWorld with active_result := Except.ok [verificationHandle] }

/-- Oracle for a run on a non-macOS platform whose permission state is not
granted, everything else succeeding. -/
def linuxNoPermWorld : World :=
  { okWorld with is_macos := false, permission_state := Except.ok false }

/-- Oracle identical to `okWorld` except that joining the spawned
permission task fails. -/
def joinFailWorld : World :=
  { okWorld with join_permission_ok := false }

@[simp] theorem propagate_error {α : Type} (tr : List Event) (e : NotifyError)
    (k : α → List Event × FlowExit) :
    propagate tr (Except.error e) k = (tr, FlowExit.err e) := rfl

@[simp] theorem propagate_ok {α : Type} (tr : List Event) (a : α)
    (k : α → List Event × FlowExit) :
    propagate tr (Except.ok a) k = k a := rfl

/-
Coverage of sends by earlier registrations, per flow (used by claim C1).
-/

theorem covered_manager_creation (w : World) :
    sendsCovered (IntegrationTests.test_notification_manager_creation w).1 = true := rfl

theorem covered_category_registration (w : World) :
    sendsCovered (IntegrationTests.test_category_registration w).1 = true := by
  unfold IntegrationTests.test_category_registration
  rcases hr : w.register_result with e | u <;>
    simp only [hr, propagate_error, propagate_ok] <;> rfl

theorem covered_permission_request (w : World) :
    sendsCovered (IntegrationTests.test_permission_request w).1 = true := by
  unfold IntegrationTests.test_permission_request
  rcases hm : w.is_macos with _ | _ <;>
  rcases hr : w.register_result with e | u <;>
  rcases hp : w.permission_result with e1 | b <;>
    simp only [hm, hr, hp, propagate_error, propagate_ok] <;> rfl

theorem covered_basic_send (w : World) :
    sendsCovered (IntegrationTests.test_basic_notification_send w).1 = true := by
  unfold IntegrationTests.test_basic_notification_send
  rcases hr : w.register_result with e | u <;>
  rcases h0 : w.send_results 0 with e0 | u0 <;>
    simp only [hr, h0, propagate_error, propagate_ok] <;> rfl

theorem covered_with_user_info (w : World) :
    sendsCovered (IntegrationTests.test_notification_with_user_info w).1 = true := by
  unfold IntegrationTests.test_notification_with_user_info
  rcases hr : w.register_result with e | u <;>
  rcases h0 : w.send_results 0 with e0 | u0 <;>
    simp only [hr, h0, propagate_error, propagate_ok] <;> rfl

theorem covered_get_active (w : World) :
    sendsCovered (IntegrationTests.test_get_active_notifications w).1 = true := by
  unfold IntegrationTests.test_get_active_notifications
  rcases hr : w.register_result with e | u <;>
  rcases h0 : w.send_results 0 with e0 | u0 <;>
  rcases ha : w.active_result with ea | acts <;>
    simp only [hr, h0, ha, propagate_error, propagate_ok] <;> rfl

theorem covered_verification (w : World) :
    sendsCovered (IntegrationTests.test_notification_verification w).1 = true := by
  unfold IntegrationTests.test_notification_verification
  rcases hr : w.register_result with e | u <;>
  rcases h0 : w.send_results 0 with e0 | u0 <;>
  rcases ha : w.active_result with ea | acts <;>
    simp only [hr, h0, ha, propagate_error, propagate_ok] <;>
    first
      | rfl
      | (split <;> first | rfl | (split <;> rfl))

theorem covered_integration_full (w : World) :
    sendsCovered (IntegrationTests.test_integration_full_flow w).1 = true := by
  unfold IntegrationTests.test_integration_full_flow
  rcases hr : w.register_result with e | u <;>
  rcases hm : w.is_macos with _ | _ <;>
  rcases hp : w.permission_result with e1 | b <;>
  rcases h0 : w.send_results 0 with e0 | u0 <;>
  rcases h1 : w.send_results 1 with e2 | u2 <;>
  rcases ha : w.active_result with ea | acts <;>
    simp only [hr, hm, hp, h0, h1, ha, propagate_error, propagate_ok] <;>
    first
      | rfl
      | (split <;> rfl)

theorem covered_example_test (w : World) :
    sendsCovered (ExampleTest.main w).1 = true := by
  unfold ExampleTest.main
  rcases hr : w.register_result with e | u <;>
  rcases hm : w.is_macos with _ | _ <;>
  rcases hj : w.join_permission_ok with _ | _ <;>
  rcases h0 : w.send_results 0 with e0 | u0 <;>
  rcases hjs : w.join_send_ok with _ | _ <;>
  rcases h1 : w.send_results 1 with e1 | u1 <;>
  rcases ha : w.active_result with ea | acts <;>
    simp only [hr, hm, hj, h0, hjs, h1, ha, propagate_error, propagate_ok,
      Bool.false_eq_true, if_true, if_false, ite_true, ite_false] <;>
    first
      | rfl
      | (split <;> rfl)

theorem covered_example_basic (w : World) :
    sendsCovered (ExampleBasic.main w).1 = true := by
  unfold ExampleBasic.main
  rcases hr : w.register_result with e | u <;>
  rcases hp : w.permission_state with e1 | b <;>
  (try cases b) <;>
  rcases hq : w.permission_result with e2 | g <;>
  (try cases g) <;>
  rcases h0 : w.send_results 0 with e3 | u3 <;>
  rcases h1 : w.send_results 1 with e4 | u4 <;>
  rcases h2 : w.send_results 2 with e5 | u5 <;>
    simp only [hr, hp, hq, h0, h1, h2, propagate_error, propagate_ok] <;> rfl

theorem covered_example_permission (w : World) :
    sendsCovered (ExamplePermission.main w).1 = true := by
  unfold ExamplePermission.main
  rcases hr : w.register_result with e | u <;>
  rcases hm : w.is_macos with _ | _ <;>
  rcases hp : w.permission_result with e1 | b <;>
    simp only [hr, hm, hp, propagate_error, propagate_ok] <;> rfl

theorem covered_example_active (w : World) :
    sendsCovered (ExampleActive.main w).1 = true := by
  unfold ExampleActive.main
  rcases hr : w.register_result with e | u <;>
  rcases h0 : w.send_results 0 with e0 | u0 <;>
  rcases h1 : w.send_results 1 with e1 | u1 <;>
  rcases ha : w.active_result with ea | acts <;>
    simp only [hr, h0, h1, ha, propagate_error, propagate_ok] <;> rfl

theorem covered_example_full (w : World) :
    sendsCovered (ExampleFull.main w).1 = true := by
  unfold ExampleFull.main
  rcases hr : w.register_result with e | u <;>
  rcases hm : w.is_macos with _ | _ <;>
  rcases hp : w.permission_result with e1 | b <;>
  rcases h0 : w.send_results 0 with e0 | u0 <;>
  rcases h1 : w.send_results 1 with e2 | u2 <;>
  rcases ha : w.active_result with ea | acts <;>
  rcases h2 : w.send_results 2 with e3 | u3 <;>
    simp only [hr, hm, hp, h0, h1, ha, h2, propagate_error, propagate_ok] <;> rfl

theorem covered_example_interactive (w : World) :
    sendsCovered (ExampleInteractive.main w).1 = true := by
  unfold ExampleInteractive.main
  rcases hr : w.register_result with e | u <;>
  rcases h0 : w.send_results 0 with e0 | u0 <;>
  rcases h1 : w.send_results 1 with e1 | u1 <;>
    simp only [hr, h0, h1, propagate_error, propagate_ok] <;> rfl

theorem long_text_never_registers (w : World) :
    countRegisters (IntegrationTests.test_long_text_notification w).1 = 0 ∧
    countSends (IntegrationTests.test_long_text_notification w).1 = 1 := by
  unfold IntegrationTests.test_long_text_notification
  rcases h0 : w.send_results 0 with e0 | u0 <;>
    simp only [h0, propagate_error, propagate_ok] <;> exact ⟨rfl, rfl⟩

/-
Error propagation per flow (used by claim C2): a failing register call is
returned from the flow by `?` after exactly one attempt and before any send;
a failing send or enumeration is returned after exactly one attempt.
-/

theorem regErr_category_registration (w : World) (e : NotifyError)
    (h : w.register_result = Except.error e) :
    (IntegrationTests.test_category_registration w).2 = FlowExit.err e ∧
    countRegisters (IntegrationTests.test_category_registration w).1 = 1 ∧
    countSends (IntegrationTests.test_category_registration w).1 = 0 := by
  unfold IntegrationTests.test_category_registration
  simp only [h, propagate_error]
  refine ⟨?_, ?_, ?_⟩ <;> trivial

theorem regErr_permission_request (w : World) (e : NotifyError)
    (hm : w.is_macos = true) (h : w.register_result = Except.error e) :
    (IntegrationTests.test_permission_request w).2 = FlowExit.err e ∧
    countRegisters (IntegrationTests.test_permission_request w).1 = 1 ∧
    countSends (IntegrationTests.test_permission_request w).1 = 0 := by
  unfold IntegrationTests.test_permission_request
  simp only [hm, h, propagate_error, if_true, ite_true]
  refine ⟨?_, ?_, ?_⟩ <;> trivial

theorem regErr_basic_send (w : World) (e : NotifyError)
    (h : w.register_result = Except.error e) :
    (IntegrationTests.test_basic_notification_send w).2 = FlowExit.err e ∧
    countRegisters (IntegrationTests.test_basic_notification_send w).1 = 1 ∧
    countSends (IntegrationTests.test_basic_notification_send w).1 = 0 := by
  unfold IntegrationTests.test_basic_notification_send
  simp only [h, propagate_error]
  refine ⟨?_, ?_, ?_⟩ <;> trivial

theorem regErr_with_user_info (w : World) (e : NotifyError)
    (h : w.register_result = Except.error e) :
    (IntegrationTests.test_notification_with_user_info w).2 = FlowExit.err e ∧
    countRegisters (IntegrationTests.test_notification_with_user_info w).1 = 1 ∧
    countSends (IntegrationTests.test_notification_with_user_info w).1 = 0 := by
  unfold IntegrationTests.test_notification_with_user_info
  simp only [h, propagate_error]
  refine ⟨?_, ?_, ?_⟩ <;> trivial

theorem regErr_get_active (w : World) (e : NotifyError)
    (h : w.register_result = Except.error e) :
    (IntegrationTests.test_get_active_notifications w).2 = FlowExit.err e ∧
    countRegisters (IntegrationTests.test_get_active_notifications w).1 = 1 ∧
    countSends (IntegrationTests.test_get_active_notifications w).1 = 0 := by
  unfold IntegrationTests.test_get_active_notifications
  simp only [h, propagate_error]
  refine ⟨?_, ?_, ?_⟩ <;> trivial

theorem regErr_verification (w : World) (e : NotifyError)
    (h : w.register_result = Except.error e) :
    (IntegrationTests.test_notification_verification w).2 = FlowExit.err e ∧
    countRegisters (IntegrationTests.test_notification_verification w).1 = 1 ∧
    countSends (IntegrationTests.test_notification_verification w).1 = 0 := by
  unfold IntegrationTests.test_notification_verification
  simp only [h, propagate_error]
  refine ⟨?_, ?_, ?_⟩ <;> trivial

theorem regErr_integration_full (w : World) (e : NotifyError)
    (h : w.register_result = Except.error e) :
    (IntegrationTests.test_integration_full_flow w).2 = FlowExit.err e ∧
    countRegisters (IntegrationTests.test_integration_full_flow w).1 = 1 ∧
    countSends (IntegrationTests.test_integration_full_flow w).1 = 0 := by
  unfold IntegrationTests.test_integration_full_flow
  simp only [h, propagate_error]
  refine ⟨?_, ?_, ?_⟩ <;> trivial

theorem regErr_example_test (w : World) (e : NotifyError)
    (h : w.register_result = Except.error e) :
    (ExampleTest.main w).2 = FlowExit.err e ∧
    countRegisters (ExampleTest.main w).1 = 1 ∧
    countSends (ExampleTest.main w).1 = 0 := by
  unfold ExampleTest.main
  simp only [h, propagate_error]
  refine ⟨?_, ?_, ?_⟩ <;> trivial

theorem regErr_example_basic (w : World) (e : NotifyError)
    (h : w.register_result = Except.error e) :
    (ExampleBasic.main w).2 = FlowExit.err e ∧
    countRegisters (ExampleBasic.main w).1 = 1 ∧
    countSends (ExampleBasic.main w).1 = 0 := by
  unfold ExampleBasic.main
  simp only [h, propagate_error]
  refine ⟨?_, ?_, ?_⟩ <;> trivial

theorem regErr_example_permission (w : World) (e : NotifyError)
    (h : w.register_result = Except.error e) :
    (ExamplePermission.main w).2 = FlowExit.err e ∧
    countRegisters (ExamplePermission.main w).1 = 1 ∧
    countSends (ExamplePermission.main w).1 = 0 := by
  unfold ExamplePermission.main
  simp only [h, propagate_error]
  refine ⟨?_, ?_, ?_⟩ <;> trivial

theorem regErr_example_active (w : World) (e : NotifyError)
    (h : w.register_result = Except.error e) :
    (ExampleActive.main w).2 = FlowExit.err e ∧
    countRegisters (ExampleActive.main w).1 = 1 ∧
    countSends (ExampleActive.main w).1 = 0 := by
  unfold ExampleActive.main
  simp only [h, propagate_error]
  refine ⟨?_, ?_, ?_⟩ <;> trivial

theorem regErr_example_full (w : World) (e : NotifyError)
    (h : w.register_result = Except.error e) :
    (ExampleFull.main w).2 = FlowExit.err e ∧
    countRegisters (ExampleFull.main w).1 = 1 ∧
    countSends (ExampleFull.main w).1 = 0 := by
  unfold ExampleFull.main
  simp only [h, propagate_error]
  refine ⟨?_, ?_, ?_⟩ <;> trivial

theorem regErr_example_interactive (w : World) (e : NotifyError)
    (h : w.register_result = Except.error e) :
    (ExampleInteractive.main w).2 = FlowExit.err e ∧
    countRegisters (ExampleInteractive.main w).1 = 1 ∧
    countSends (ExampleInteractive.main w).1 = 0 := by
  unfold ExampleInteractive.main
  simp only [h, propagate_error]
  refine ⟨?_, ?_, ?_⟩ <;> trivial

theorem sendErr_basic_send (w : World) (e : NotifyError)
    (hr : w.register_result = Except.ok ()) (h0 : w.send_results 0 = Except.error e) :
    (IntegrationTests.test_basic_notification_send w).2 = FlowExit.err e ∧
    countSends (IntegrationTests.test_basic_notification_send w).1 = 1 := by
  unfold IntegrationTests.test_basic_notification_send
  simp only [hr, h0, propagate_ok, propagate_error]
  refine ⟨?_, ?_⟩ <;> trivial

theorem sendErr_with_user_info (w : World) (e : NotifyError)
    (hr : w.register_result = Except.ok ()) (h0 : w.send_results 0 = Except.error e) :
    (IntegrationTests.test_notification_with_user_info w).2 = FlowExit.err e ∧
    countSends (IntegrationTests.test_notification_with_user_info w).1 = 1 := by
  unfold IntegrationTests.test_notification_with_user_info
  simp only [hr, h0, propagate_ok, propagate_error]
  refine ⟨?_, ?_⟩ <;> trivial

theorem sendErr_get_active (w : World) (e : NotifyError)
    (hr : w.register_result = Except.ok ()) (h0 : w.send_results 0 = Except.error e) :
    (IntegrationTests.test_get_active_notifications w).2 = FlowExit.err e ∧
    countSends (IntegrationTests.test_get_active_notifications w).1 = 1 := by
  unfold IntegrationTests.test_get_active_notifications
  simp only [hr, h0, propagate_ok, propagate_error]
  refine ⟨?_, ?_⟩ <;> trivial

theorem sendErr_verification (w : World) (e : NotifyError)
    (hr : w.register_result = Except.ok ()) (h0 : w.send_results 0 = Except.error e) :
    (IntegrationTests.test_notification_verification w).2 = FlowExit.err e ∧
    countSends (IntegrationTests.test_notification_verification w).1 = 1 := by
  unfold IntegrationTests.test_notification_verification
  simp only [hr, h0, propagate_ok, propagate_error]
  refine ⟨?_, ?_⟩ <;> trivial

theorem sendErr_integration_full (w : World) (e : NotifyError)
    (hr : w.register_result = Except.ok ()) (h0 : w.send_results 0 = Except.error e) :
    (IntegrationTests.test_integration_full_flow w).2 = FlowExit.err e ∧
    countSends (IntegrationTests.test_integration_full_flow w).1 = 1 := by
  unfold IntegrationTests.test_integration_full_flow
  rcases hm : w.is_macos with _ | _ <;>
  rcases hp : w.permission_result with e1 | b <;>
    simp only [hm, hp, hr, h0, propagate_ok, propagate_error] <;>
    refine ⟨?_, ?_⟩ <;> trivial

theorem sendErr_long_text (w : World) (e : NotifyError)
    (h0 : w.send_results 0 = Except.error e) :
    (IntegrationTests.test_long_text_notification w).2 = FlowExit.err e ∧
    countSends (IntegrationTests.test_long_text_notification w).1 = 1 := by
  unfold IntegrationTests.test_long_text_notification
  simp only [h0, propagate_error]
  refine ⟨?_, ?_⟩ <;> trivial

theorem sendErr_example_test (w : World) (e : NotifyError)
    (hr : w.register_result = Except.ok ()) (h0 : w.send_results 0 = Except.error e) :
    (ExampleTest.main w).2 = FlowExit.err e ∧
    countSends (ExampleTest.main w).1 = 1 := by
  unfold ExampleTest.main
  rcases hm : w.is_macos with _ | _ <;>
  rcases hj : w.join_permission_ok with _ | _ <;>
    simp only [hm, hj, hr, h0, propagate_ok, propagate_error,
      Bool.false_eq_true, if_true, if_false, ite_true, ite_false] <;>
    refine ⟨?_, ?_⟩ <;> trivial

theorem sendErr2_example_test (w : World) (e : NotifyError)
    (hr : w.register_result = Except.ok ()) (h0 : w.send_results 0 = Except.ok ())
    (hjs : w.join_send_ok = true) (h1 : w.send_results 1 = Except.error e) :
    (ExampleTest.main w).2 = FlowExit.err e ∧
    countSends (ExampleTest.main w).1 = 2 := by
  unfold ExampleTest.main
  rcases hm : w.is_macos with _ | _ <;>
  rcases hj : w.join_permission_ok with _ | _ <;>
    simp only [hm, hj, hjs, hr, h0, h1, propagate_ok, propagate_error,
      Bool.false_eq_true, if_true, if_false, ite_true, ite_false] <;>
    refine ⟨?_, ?_⟩ <;> trivial

theorem sendErr_example_basic (w : World) (e : NotifyError)
    (hr : w.register_result = Except.ok ()) (hp : w.permission_state = Except.ok true)
    (h0 : w.send_results 0 = Except.error e) :
    (ExampleBasic.main w).2 = FlowExit.err e ∧
    countSends (ExampleBasic.main w).1 = 1 := by
  unfold ExampleBasic.main
  simp only [hr, hp, h0, propagate_ok, propagate_error, Bool.not_true,
    Bool.false_eq_true, if_false, ite_false]
  refine ⟨?_, ?_⟩ <;> trivial

theorem sendErr_example_active (w : World) (e : NotifyError)
    (hr : w.register_result = Except.ok ()) (h0 : w.send_results 0 = Except.error e) :
    (ExampleActive.main w).2 = FlowExit.err e ∧
    countSends (ExampleActive.main w).1 = 1 := by
  unfold ExampleActive.main
  simp only [hr, h0, propagate_ok, propagate_error]
  refine ⟨?_, ?_⟩ <;> trivial

theorem sendErr_example_full (w : World) (e : NotifyError)
    (hr : w.register_result = Except.ok ()) (h0 : w.send_results 0 = Except.error e) :
    (ExampleFull.main w).2 = FlowExit.err e ∧
    countSends (ExampleFull.main w).1 = 1 := by
  unfold ExampleFull.main
  rcases hm : w.is_macos with _ | _ <;>
  rcases hp : w.permission_result with e1 | b <;>
    simp only [hm, hp, hr, h0, propagate_ok, propagate_error] <;>
    refine ⟨?_, ?_⟩ <;> trivial

theorem sendErr_example_interactive (w : World) (e : NotifyError)
    (hr : w.register_result = Except.ok ()) (h0 : w.send_results 0 = Except.error e) :
    (ExampleInteractive.main w).2 = FlowExit.err e ∧
    countSends (ExampleInteractive.main w).1 = 1 := by
  unfold ExampleInteractive.main
  simp only [hr, h0, propagate_ok, propagate_error]
  refine ⟨?_, ?_⟩ <;> trivial

theorem activeErr_get_active (w : World) (e : NotifyError)
    (hr : w.register_result = Except.ok ()) (h0 : w.send_results 0 = Except.ok ())
    (ha : w.active_result = Except.error e) :
    (IntegrationTests.test_get_active_notifications w).2 = FlowExit.err e ∧
    countGetActive (IntegrationTests.test_get_active_notifications w).1 = 1 := by
  unfold IntegrationTests.test_get_active_notifications
  simp only [hr, h0, ha, propagate_ok, propagate_error]
  refine ⟨?_, ?_⟩ <;> trivial

theorem activeErr_verification (w : World) (e : NotifyError)
    (hr : w.register_result = Except.ok ()) (h0 : w.send_results 0 = Except.ok ())
    (ha : w.active_result = Except.error e) :
    (IntegrationTests.test_notification_verification w).2 = FlowExit.err e ∧
    countGetActive (IntegrationTests.test_notification_verification w).1 = 1 := by
  unfold IntegrationTests.test_notification_verification
  simp only [hr, h0, ha, propagate_ok, propagate_error]
  refine ⟨?_, ?_⟩ <;> trivial

theorem activeErr_integration_full (w : World) (e : NotifyError)
    (hr : w.register_result = Except.ok ()) (h0 : w.send_results 0 = Except.ok ())
    (h1 : w.send_results 1 = Except.ok ()) (ha : w.active_result = Except.error e) :
    (IntegrationTests.test_integration_full_flow w).2 = FlowExit.err e ∧
    countGetActive (IntegrationTests.test_integration_full_flow w).1 = 1 := by
  unfold IntegrationTests.test_integration_full_flow
  rcases hm : w.is_macos with _ | _ <;>
  rcases hp : w.permission_result with e1 | b <;>
    simp only [hm, hp, hr, h0, h1, ha, propagate_ok, propagate_error] <;>
    refine ⟨?_, ?_⟩ <;> trivial

theorem activeErr_example_test (w : World) (e : NotifyError)
    (hr : w.register_result = Except.ok ()) (h0 : w.send_results 0 = Except.ok ())
    (hjs : w.join_send_ok = true) (h1 : w.send_results 1 = Except.ok ())
    (ha : w.active_result = Except.error e) :
    (ExampleTest.main w).2 = FlowExit.err e ∧
    countGetActive (ExampleTest.main w).1 = 1 := by
  unfold ExampleTest.main
  rcases hm : w.is_macos with _ | _ <;>
  rcases hj : w.join_permission_ok with _ | _ <;>
    simp only [hm, hj, hjs, hr, h0, h1, ha, propagate_ok, propagate_error,
      Bool.false_eq_true, if_true, if_false, ite_true, ite_false] <;>
    refine ⟨?_, ?_⟩ <;> trivial

theorem activeErr_example_active (w : World) (e : NotifyError)
    (hr : w.register_result = Except.ok ()) (h0 : w.send_results 0 = Except.ok ())
    (h1 : w.send_results 1 = Except.ok ()) (ha : w.active_result = Except.error e) :
    (ExampleActive.main w).2 = FlowExit.err e ∧
    countGetActive (ExampleActive.main w).1 = 1 := by
  unfold ExampleActive.main
  simp only [hr, h0, h1, ha, propagate_ok, propagate_error]
  refine ⟨?_, ?_⟩ <;> trivial

theorem activeErr_example_full (w : World) (e : NotifyError)
    (hr : w.register_result = Except.ok ()) (h0 : w.send_results 0 = Except.ok ())
    (h1 : w.send_results 1 = Except.ok ()) (ha : w.active_result = Except.error e) :
    (ExampleFull.main w).2 = FlowExit.err e ∧
    countGetActive (ExampleFull.main w).1 = 1 := by
  unfold ExampleFull.main
  rcases hm : w.is_macos with _ | _ <;>
  rcases hp : w.permission_result with e1 | b <;>
    simp only [hm, hp, hr, h0, h1, ha, propagate_ok, propagate_error] <;>
    refine ⟨?_, ?_⟩ <;> trivial

theorem sendErr2_integration_full (w : World) (e : NotifyError)
    (hr : w.register_result = Except.ok ()) (h0 : w.send_results 0 = Except.ok ())
    (h1 : w.send_results 1 = Except.error e) :
    (IntegrationTests.test_integration_full_flow w).2 = FlowExit.err e ∧
    countSends (IntegrationTests.test_integration_full_flow w).1 = 2 := by
  unfold IntegrationTests.test_integration_full_flow
  rcases hm : w.is_macos with _ | _ <;>
  rcases hp : w.permission_result with e1 | b <;>
    simp only [hm, hp, hr, h0, h1, propagate_ok, propagate_error] <;>
    refine ⟨?_, ?_⟩ <;> trivial

theorem sendErr2_example_basic (w : World) (e : NotifyError)
    (hr : w.register_result = Except.ok ()) (hp : w.permission_state = Except.ok true)
    (h0 : w.send_results 0 = Except.ok ()) (h1 : w.send_results 1 = Except.error e) :
    (ExampleBasic.main w).2 = FlowExit.err e ∧
    countSends (ExampleBasic.main w).1 = 2 := by
  unfold ExampleBasic.main
  simp only [hr, hp, h0, h1, propagate_ok, propagate_error, Bool.not_true,
    Bool.false_eq_true, if_false, ite_false]
  refine ⟨?_, ?_⟩ <;> trivial

theorem sendErr3_example_basic (w : World) (e : NotifyError)
    (hr : w.register_result = Except.ok ()) (hp : w.permission_state = Except.ok true)
    (h0 : w.send_results 0 = Except.ok ()) (h1 : w.send_results 1 = Except.ok ())
    (h2 : w.send_results 2 = Except.error e) :
    (ExampleBasic.main w).2 = FlowExit.err e ∧
    countSends (ExampleBasic.main w).1 = 3 := by
  unfold ExampleBasic.main
  simp only [hr, hp, h0, h1, h2, propagate_ok, propagate_error, Bool.not_true,
    Bool.false_eq_true, if_false, ite_false]
  refine ⟨?_, ?_⟩ <;> trivial

theorem sendErr2_example_active (w : World) (e : NotifyError)
    (hr : w.register_result = Except.ok ()) (h0 : w.send_results 0 = Except.ok ())
    (h1 : w.send_results 1 = Except.error e) :
    (ExampleActive.main w).2 = FlowExit.err e ∧
    countSends (ExampleActive.main w).1 = 2 := by
  unfold ExampleActive.main
  simp only [hr, h0, h1, propagate_ok, propagate_error]
  refine ⟨?_, ?_⟩ <;> trivial

theorem sendErr2_example_full (w : World) (e : NotifyError)
    (hr : w.register_result = Except.ok ()) (h0 : w.send_results 0 = Except.ok ())
    (h1 : w.send_results 1 = Except.error e) :
    (ExampleFull.main w).2 = FlowExit.err e ∧
    countSends (ExampleFull.main w).1 = 2 := by
  unfold ExampleFull.main
  rcases hm : w.is_macos with _ | _ <;>
  rcases hp : w.permission_result with e1 | b <;>
    simp only [hm, hp, hr, h0, h1, propagate_ok, propagate_error] <;>
    refine ⟨?_, ?_⟩ <;> trivial

theorem sendErr3_example_full (w : World) (e : NotifyError)
    (hr : w.register_result = Except.ok ()) (h0 : w.send_results 0 = Except.ok ())
    (h1 : w.send_results 1 = Except.ok ()) :
    ∀ acts, w.active_result = Except.ok acts → w.send_results 2 = Except.error e →
    (ExampleFull.main w).2 = FlowExit.err e ∧
    countSends (ExampleFull.main w).1 = 3 := by
  intro acts ha h2
  unfold ExampleFull.main
  rcases hm : w.is_macos with _ | _ <;>
  rcases hp : w.permission_result with e1 | b <;>
    simp only [hm, hp, hr, h0, h1, ha, h2, propagate_ok, propagate_error] <;>
    refine ⟨?_, ?_⟩ <;> trivial

theorem sendErr2_example_interactive (w : World) (e : NotifyError)
    (hr : w.register_result = Except.ok ()) (h0 : w.send_results 0 = Except.ok ())
    (h1 : w.send_results 1 = Except.error e) :
    (ExampleInteractive.main w).2 = FlowExit.err e ∧
    countSends (ExampleInteractive.main w).1 = 2 := by
  unfold ExampleInteractive.main
  simp only [hr, h0, h1, propagate_ok, propagate_error]
  refine ⟨?_, ?_⟩ <;> trivial

/-- A failing permission request in the integration test
`test_permission_request` is only logged: the test still returns `Ok`. -/
theorem permNonfatal_permission_request (w : World) (e : NotifyError)
    (hm : w.is_macos = true) (hr : w.register_result = Except.ok ())
    (hp : w.permission_result = Except.error e) :
    (IntegrationTests.test_permission_request w).2 = FlowExit.ok ∧
    countPermFailureLogs (IntegrationTests.test_permission_request w).1 = 1 := by
  unfold IntegrationTests.test_permission_request
  simp only [hm, hr, hp, propagate_ok, propagate_error, if_true, ite_true]
  refine ⟨?_, ?_⟩ <;> trivial

/-- A failing permission request in `test_integration_full_flow` is logged
as a warning and the flow continues: both notifications are still sent and
the active notifications are still enumerated. -/
theorem permNonfatal_integration_full (w : World) (e : NotifyError)
    (hm : w.is_macos = true) (hr : w.register_result = Except.ok ())
    (hp : w.permission_result = Except.error e)
    (h0 : w.send_results 0 = Except.ok ()) (h1 : w.send_results 1 = Except.ok ()) :
    countPermFailureLogs (IntegrationTests.test_integration_full_flow w).1 = 1 ∧
    countSends (IntegrationTests.test_integration_full_flow w).1 = 2 ∧
    countGetActive (IntegrationTests.test_integration_full_flow w).1 = 1 := by
  unfold IntegrationTests.test_integration_full_flow
  rcases ha : w.active_result with ea | acts <;>
    simp only [hm, hr, hp, h0, h1, ha, propagate_ok, propagate_error, if_true, ite_true] <;>
    first
      | (refine ⟨?_, ?_, ?_⟩ <;> trivial)
      | (split <;> refine ⟨?_, ?_, ?_⟩ <;> trivial)

/-- A failing permission request in the full-integration example is printed
and the flow continues: the first notification is still sent. -/
theorem permNonfatal_example_full (w : World) (e : NotifyError)
    (hm : w.is_macos = true) (hr : w.register_result = Except.ok ())
    (hp : w.permission_result = Except.error e) :
    countPermFailureLogs (ExampleFull.main w).1 = 1 ∧
    1 ≤ countSends (ExampleFull.main w).1 := by
  unfold ExampleFull.main
  rcases h0 : w.send_results 0 with e0 | u0 <;>
  rcases h1 : w.send_results 1 with e1 | u1 <;>
  rcases ha : w.active_result with ea | acts <;>
  rcases h2 : w.send_results 2 with e2 | u2 <;>
    simp only [hm, hr, hp, h0, h1, ha, h2, propagate_ok, propagate_error, if_true, ite_true] <;>
    exact ⟨by trivial, Nat.sub_eq_zero_iff_le.mp rfl⟩

/-- A failing permission request in the permission-request example is
fatal: the error is returned from `main` and nothing is sent. -/
theorem permFatal_example_permission (w : World) (e : NotifyError)
    (hm : w.is_macos = true) (hr : w.register_result = Except.ok ())
    (hp : w.permission_result = Except.error e) :
    (ExamplePermission.main w).2 = FlowExit.err e ∧
    countSends (ExamplePermission.main w).1 = 0 := by
  unfold ExamplePermission.main
  simp only [hm, hr, hp, propagate_ok, propagate_error, if_true, ite_true]
  refine ⟨?_, ?_⟩ <;> trivial

/-- A failing permission request in the basic-notification example is fatal
(the call is made with the `?` operator, on every platform): the error is
returned from `main` and nothing is sent. -/
theorem permFatal_example_basic (w : World) (e : NotifyError)
    (hr : w.register_result = Except.ok ()) (hs : w.permission_state = Except.ok false)
    (hp : w.permission_result = Except.error e) :
    (ExampleBasic.main w).2 = FlowExit.err e ∧
    countSends (ExampleBasic.main w).1 = 0 := by
  unfold ExampleBasic.main
  simp only [hr, hs, hp, propagate_ok, propagate_error, Bool.not_false,
    if_true, ite_true]
  refine ⟨?_, ?_⟩ <;> trivial

/-- A failing permission request in the interactive example is invisible to
control flow: the inner result of the spawned task is discarded, the success
message is still logged, and the flow continues to the sends. -/
theorem permNonfatal_example_test (w : World) (e : NotifyError)
    (hm : w.is_macos = true) (hr : w.register_result = Except.ok ())
    (hj : w.join_permission_ok = true) (hp : w.permission_result = Except.error e) :
    countPermSuccessLogs (ExampleTest.main w).1 = 1 ∧
    countPermFailureLogs (ExampleTest.main w).1 = 0 ∧
    1 ≤ countSends (ExampleTest.main w).1 := by
  unfold ExampleTest.main
  rcases h0 : w.send_results 0 with e0 | u0 <;>
  rcases hjs : w.join_send_ok with _ | _ <;>
  rcases h1 : w.send_results 1 with e1 | u1 <;>
  rcases ha : w.active_result with ea | acts <;>
    simp only [hm, hr, hj, hp, h0, hjs, h1, ha, propagate_ok, propagate_error,
      Bool.false_eq_true, if_true, if_false, ite_true, ite_false] <;>
    first
      | (refine ⟨?_, ?_, ?_⟩ <;> first | rfl | exact Nat.sub_eq_zero_iff_le.mp rfl)
      | (split <;> refine ⟨?_, ?_, ?_⟩ <;> first | rfl | exact Nat.sub_eq_zero_iff_le.mp rfl)

/-- C2 (counterexample): the claim fails on the permission-request example.
With the manager accepting the registration and the permission request
failing, that example returns the permission error from `main` — the
failure is fatal and nothing further runs, it is not a logged-warning
non-fatal path. -/
theorem C2_counterexample_permission_example_fatal :
    (ExamplePermission.main permDeniedWorld).2 =
      FlowExit.err { msg := "permission denied" } ∧
    countSends (ExamplePermission.main permDeniedWorld).1 = 0 := by
  exact ⟨rfl, rfl⟩

/-- C2 (amended): in every example and test flow, a failure result returned
by register, send_notification, or get_active_notifications is propagated to
the exit path of that flow, reported once and never retried (the failing call
appears exactly once in the trace and nothing beyond it runs).  A failure of
the first-time permission request is non-fatal — logged and the flow
continues — in the integration tests, in the interactive example (where the
own error of the spawned task is discarded entirely), and in the full-integration
example; but it is propagated fatally in the permission-request example and
in the basic-notification example. -/
theorem C2_failures_propagate_except_fatal_permission (w : World) (e : NotifyError) :
    (w.register_result = Except.error e →
      (IntegrationTests.test_category_registration w).2 = FlowExit.err e ∧
      countRegisters (IntegrationTests.test_category_registration w).1 = 1 ∧
      countSends (IntegrationTests.test_category_registration w).1 = 0) ∧
    (w.register_result = Except.ok () → w.send_results 0 = Except.error e →
      (IntegrationTests.test_basic_notification_send w).2 = FlowExit.err e ∧
      countSends (IntegrationTests.test_basic_notification_send w).1 = 1) ∧
    (w.register_result = Except.ok () → w.send_results 0 = Except.ok () →
      w.active_result = Except.error e →
      (IntegrationTests.test_get_active_notifications w).2 = FlowExit.err e ∧
      countGetActive (IntegrationTests.test_get_active_notifications w).1 = 1) ∧
    (w.is_macos = true → w.register_result = Except.ok () →
      w.permission_result = Except.error e →
      (ExamplePermission.main w).2 = FlowExit.err e ∧
      countSends (ExamplePermission.main w).1 = 0) ∧
    (w.register_result = Except.ok () → w.permission_state = Except.ok false →
      w.permission_result = Except.error e →
      (ExampleBasic.main w).2 = FlowExit.err e ∧
      countSends (ExampleBasic.main w).1 = 0) ∧
    (w.is_macos = true → w.register_result = Except.ok () →
      w.permission_result = Except.error e →
      (IntegrationTests.test_permission_request w).2 = FlowExit.ok ∧
      countPermFailureLogs (IntegrationTests.test_permission_request w).1 = 1) ∧
    (w.is_macos = true → w.register_result = Except.ok () →
      w.join_permission_ok = true → w.permission_result = Except.error e →
      countPermSuccessLogs (ExampleTest.main w).1 = 1 ∧
      countPermFailureLogs (ExampleTest.main w).1 = 0 ∧
      1 ≤ countSends (ExampleTest.main w).1) ∧
    (w.is_macos = true → w.register_result = Except.ok () →
      w.permission_result = Except.error e →
      w.send_results 0 = Except.ok () → w.send_results 1 = Except.ok () →
      countPermFailureLogs (IntegrationTests.test_integration_full_flow w).1 = 1 ∧
      countSends (IntegrationTests.test_integration_full_flow w).1 = 2 ∧
      countGetActive (IntegrationTests.test_integration_full_flow w).1 = 1) ∧
    (w.is_macos = true → w.register_result = Except.ok () →
      w.permission_result = Except.error e →
      countPermFailureLogs (ExampleFull.main w).1 = 1 ∧
      1 ≤ countSends (ExampleFull.main w).1) ∧
    (w.is_macos = true → w.register_result = Except.error e →
      (IntegrationTests.test_permission_request w).2 = FlowExit.err e ∧
      countRegisters (IntegrationTests.test_permission_request w).1 = 1 ∧
      countSends (IntegrationTests.test_permission_request w).1 = 0) ∧
    (w.register_result = Except.error e →
      (IntegrationTests.test_basic_notification_send w).2 = FlowExit.err e ∧
      countRegisters (IntegrationTests.test_basic_notification_send w).1 = 1 ∧
      countSends (IntegrationTests.test_basic_notification_send w).1 = 0) ∧
    (w.register_result = Except.error e →
      (IntegrationTests.test_notification_with_user_info w).2 = FlowExit.err e ∧
      countRegisters (IntegrationTests.test_notification_with_user_info w).1 = 1 ∧
      countSends (IntegrationTests.test_notification_with_user_info w).1 = 0) ∧
    (w.register_result = Except.error e →
      (IntegrationTests.test_get_active_notifications w).2 = FlowExit.err e ∧
      countRegisters (IntegrationTests.test_get_active_notifications w).1 = 1 ∧
      countSends (IntegrationTests.test_get_active_notifications w).1 = 0) ∧
    (w.register_result = Except.error e →
      (IntegrationTests.test_notification_verification w).2 = FlowExit.err e ∧
      countRegisters (IntegrationTests.test_notification_verification w).1 = 1 ∧
      countSends (IntegrationTests.test_notification_verification w).1 = 0) ∧
    (w.register_result = Except.error e →
      (IntegrationTests.test_integration_full_flow w).2 = FlowExit.err e ∧
      countRegisters (IntegrationTests.test_integration_full_flow w).1 = 1 ∧
      countSends (IntegrationTests.test_integration_full_flow w).1 = 0) ∧
    (w.register_result = Except.error e →
      (ExampleTest.main w).2 = FlowExit.err e ∧
      countRegisters (ExampleTest.main w).1 = 1 ∧
      countSends (ExampleTest.main w).1 = 0) ∧
    (w.register_result = Except.error e →
      (ExampleBasic.main w).2 = FlowExit.err e ∧
      countRegisters (ExampleBasic.main w).1 = 1 ∧
      countSends (ExampleBasic.main w).1 = 0) ∧
    (w.register_result = Except.error e →
      (ExamplePermission.main w).2 = FlowExit.err e ∧
      countRegisters (ExamplePermission.main w).1 = 1 ∧
      countSends (ExamplePermission.main w).1 = 0) ∧
    (w.register_result = Except.error e →
      (ExampleActive.main w).2 = FlowExit.err e ∧
      countRegisters (ExampleActive.main w).1 = 1 ∧
      countSends (ExampleActive.main w).1 = 0) ∧
    (w.register_result = Except.error e →
      (ExampleFull.main w).2 = FlowExit.err e ∧
      countRegisters (ExampleFull.main w).1 = 1 ∧
      countSends (ExampleFull.main w).1 = 0) ∧
    (w.register_result = Except.error e →
      (ExampleInteractive.main w).2 = FlowExit.err e ∧
      countRegisters (ExampleInteractive.main w).1 = 1 ∧
      countSends (ExampleInteractive.main w).1 = 0) ∧
    (w.register_result = Except.ok () → w.send_results 0 = Except.error e →
      (IntegrationTests.test_notification_with_user_info w).2 = FlowExit.err e ∧
      countSends (IntegrationTests.test_notification_with_user_info w).1 = 1) ∧
    (w.register_result = Except.ok () → w.send_results 0 = Except.error e →
      (IntegrationTests.test_get_active_notifications w).2 = FlowExit.err e ∧
      countSends (IntegrationTests.test_get_active_notifications w).1 = 1) ∧
    (w.register_result = Except.ok () → w.send_results 0 = Except.error e →
      (IntegrationTests.test_notification_verification w).2 = FlowExit.err e ∧
      countSends (IntegrationTests.test_notification_verification w).1 = 1) ∧
    (w.register_result = Except.ok () → w.send_results 0 = Except.error e →
      (IntegrationTests.test_integration_full_flow w).2 = FlowExit.err e ∧
      countSends (IntegrationTests.test_integration_full_flow w).1 = 1) ∧
    (w.send_results 0 = Except.error e →
      (IntegrationTests.test_long_text_notification w).2 = FlowExit.err e ∧
      countSends (IntegrationTests.test_long_text_notification w).1 = 1) ∧
    (w.register_result = Except.ok () → w.send_results 0 = Except.error e →
      (ExampleTest.main w).2 = FlowExit.err e ∧
      countSends (ExampleTest.main w).1 = 1) ∧
    (w.register_result = Except.ok () → w.send_results 0 = Except.ok () →
      w.join_send_ok = true → w.send_results 1 = Except.error e →
      (ExampleTest.main w).2 = FlowExit.err e ∧
      countSends (ExampleTest.main w).1 = 2) ∧
    (w.register_result = Except.ok () → w.permission_state = Except.ok true →
      w.send_results 0 = Except.error e →
      (ExampleBasic.main w).2 = FlowExit.err e ∧
      countSends (ExampleBasic.main w).1 = 1) ∧
    (w.register_result = Except.ok () → w.send_results 0 = Except.error e →
      (ExampleActive.main w).2 = FlowExit.err e ∧
      countSends (ExampleActive.main w).1 = 1) ∧
    (w.register_result = Except.ok () → w.send_results 0 = Except.error e →
      (ExampleFull.main w).2 = FlowExit.err e ∧
      countSends (ExampleFull.main w).1 = 1) ∧
    (w.register_result = Except.ok () → w.send_results 0 = Except.error e →
      (ExampleInteractive.main w).2 = FlowExit.err e ∧
      countSends (ExampleInteractive.main w).1 = 1) ∧
    (w.register_result = Except.ok () → w.send_results 0 = Except.ok () →
      w.active_result = Except.error e →
      (IntegrationTests.test_notification_verification w).2 = FlowExit.err e ∧
      countGetActive (IntegrationTests.test_notification_verification w).1 = 1) ∧
    (w.register_result = Except.ok () → w.send_results 0 = Except.ok () →
      w.send_results 1 = Except.ok () → w.active_result = Except.error e →
      (IntegrationTests.test_integration_full_flow w).2 = FlowExit.err e ∧
      countGetActive (IntegrationTests.test_integration_full_flow w).1 = 1) ∧
    (w.register_result = Except.ok () → w.send_results 0 = Except.ok () →
      w.join_send_ok = true → w.send_results 1 = Except.ok () →
      w.active_result = Except.error e →
      (ExampleTest.main w).2 = FlowExit.err e ∧
      countGetActive (ExampleTest.main w).1 = 1) ∧
    (w.register_result = Except.ok () → w.send_results 0 = Except.ok () →
      w.send_results 1 = Except.ok () → w.active_result = Except.error e →
      (ExampleActive.main w).2 = FlowExit.err e ∧
      countGetActive (ExampleActive.main w).1 = 1) ∧
    (w.register_result = Except.ok () → w.send_results 0 = Except.ok () →
      w.send_results 1 = Except.ok () → w.active_result = Except.error e →
      (ExampleFull.main w).2 = FlowExit.err e ∧
      countGetActive (ExampleFull.main w).1 = 1) ∧
    (w.register_result = Except.ok () → w.send_results 0 = Except.ok () →
      w.send_results 1 = Except.error e →
      (IntegrationTests.test_integration_full_flow w).2 = FlowExit.err e ∧
      countSends (IntegrationTests.test_integration_full_flow w).1 = 2) ∧
    (w.register_result = Except.ok () → w.permission_state = Except.ok true →
      w.send_results 0 = Except.ok () → w.send_results 1 = Except.error e →
      (ExampleBasic.main w).2 = FlowExit.err e ∧
      countSends (ExampleBasic.main w).1 = 2) ∧
    (w.register_result = Except.ok () → w.permission_state = Except.ok true →
      w.send_results 0 = Except.ok () → w.send_results 1 = Except.ok () →
      w.send_results 2 = Except.error e →
      (ExampleBasic.main w).2 = FlowExit.err e ∧
      countSends (ExampleBasic.main w).1 = 3) ∧
    (w.register_result = Except.ok () → w.send_results 0 = Except.ok () →
      w.send_results 1 = Except.error e →
      (ExampleActive.main w).2 = FlowExit.err e ∧
      countSends (ExampleActive.main w).1 = 2) ∧
    (w.register_result = Except.ok () → w.send_results 0 = Except.ok () →
      w.send_results 1 = Except.error e →
      (ExampleFull.main w).2 = FlowExit.err e ∧
      countSends (ExampleFull.main w).1 = 2) ∧
    (w.register_result = Except.ok () → w.send_results 0 = Except.ok () →
      w.send_results 1 = Except.ok () →
      ∀ acts, w.active_result = Except.ok acts → w.send_results 2 = Except.error e →
      (ExampleFull.main w).2 = FlowExit.err e ∧
      countSends (ExampleFull.main w).1 = 3) ∧
    (w.register_result = Except.ok () → w.send_results 0 = Except.ok () →
      w.send_results 1 = Except.error e →
      (ExampleInteractive.main w).2 = FlowExit.err e ∧
      countSends (ExampleInteractive.main w).1 = 2) :=
  ⟨regErr_category_registration w e,
   sendErr_basic_send w e,
   activeErr_get_active w e,
   permFatal_example_permission w e,
   permFatal_example_basic w e,
   permNonfatal_permission_request w e,
   permNonfatal_example_test w e,
   permNonfatal_integration_full w e,
   permNonfatal_example_full w e,
   regErr_permission_request w e,
   regErr_basic_send w e,
   regErr_with_user_info w e,
   regErr_get_active w e,
   regErr_verification w e,
   regErr_integration_full w e,
   regErr_example_test w e,
   regErr_example_basic w e,
   regErr_example_permission w e,
   regErr_example_active w e,
   regErr_example_full w e,
   regErr_example_interactive w e,
   sendErr_with_user_info w e,
   sendErr_get_active w e,
   sendErr_verification w e,
   sendErr_integration_full w e,
   sendErr_long_text w e,
   sendErr_example_test w e,
   sendErr2_example_test w e,
   sendErr_example_basic w e,
   sendErr_example_active w e,
   sendErr_example_full w e,
   sendErr_example_interactive w e,
   activeErr_verification w e,
   activeErr_integration_full w e,
   activeErr_example_test w e,
   activeErr_example_active w e,
   activeErr_example_full w e,
   sendErr2_integration_full w e,
   sendErr2_example_basic w e,
   sendErr3_example_basic w e,
   sendErr2_example_active w e,
   sendErr2_example_full w e,
   sendErr3_example_full w e,
   sendErr2_example_interactive w e⟩

/-- C2 (witness): the amended claim evaluated on concrete oracles — a
register failure, a send failure and an enumeration failure are each
returned from their flow, a permission failure is fatal in the
permission-request example but leaves the permission-request integration
test with exit `Ok`, in the interactive example it is discarded with the
success message still logged, and a failure of a later send (the second send
of the full integration test) is also returned from its flow. -/
theorem C2_failures_propagate_witness :
    (IntegrationTests.test_category_registration regFailWorld).2 =
      FlowExit.err { msg := "bad category" } ∧
    (IntegrationTests.test_basic_notification_send sendFailWorld).2 =
      FlowExit.err { msg := "transport error" } ∧
    (IntegrationTests.test_get_active_notifications activeFailWorld).2 =
      FlowExit.err { msg := "enumeration failed" } ∧
    (ExamplePermission.main permDeniedWorld).2 =
      FlowExit.err { msg := "permission denied" } ∧
    (IntegrationTests.test_permission_request permDeniedWorld).2 = FlowExit.ok ∧
    countPermSuccessLogs (ExampleTest.main permDeniedWorld).1 = 1 ∧
    (IntegrationTests.test_integration_full_flow laterSendFailWorld).2 =
      FlowExit.err { msg := "transport error" } :=
  ⟨(C2_failures_propagate_except_fatal_permission regFailWorld
      { msg := "bad category" }).1 rfl |>.1,
   ((C2_failures_propagate_except_fatal_permission sendFailWorld
      { msg := "transport error" }).2.1 rfl rfl).1,
   ((C2_failures_propagate_except_fatal_permission activeFailWorld
      { msg := "enumeration failed" }).2.2.1 rfl rfl rfl).1,
   ((C2_failures_propagate_except_fatal_permission permDeniedWorld
      { msg := "permission denied" }).2.2.2.1 rfl rfl rfl).1,
   ((C2_failures_propagate_except_fatal_permission permDeniedWorld
      { msg := "permission denied" }).2.2.2.2.2.1 rfl rfl rfl).1,
   ((C2_failures_propagate_except_fatal_permission permDeniedWorld
      { msg := "permission denied" }).2.2.2.2.2.2.1 rfl rfl rfl rfl).1,
   ((C2_failures_propagate_except_fatal_permission laterSendFailWorld
      { msg := "transport error" }).2.2.2.2.2.2.2.2.2.2.2.2.2.2.2.2.2.2.2.2.2.2.2.2.2.2.2.2.2.2.2.2.2.2.2.2.2.1 rfl rfl rfl).1⟩

/-- The final assertion of the interactive example holds exactly when the
user info of some returned handle contains the key `hey` — the value is not
inspected. -/
theorem exampleTest_assert_iff (w : World) (acts : List NotificationHandle)
    (hr : w.register_result = Except.ok ()) (h0 : w.send_results 0 = Except.ok ())
    (hjs : w.join_send_ok = true) (h1 : w.send_results 1 = Except.ok ())
    (ha : w.active_result = Except.ok acts) :
    ((ExampleTest.main w).2 = FlowExit.ok ↔
      ∃ h ∈ acts, mapContainsKey h.get_user_info "hey" = true) := by
  unfold ExampleTest.main
  rcases hm : w.is_macos with _ | _ <;>
  rcases hj : w.join_permission_ok with _ | _ <;>
    simp only [hm, hj, hjs, hr, h0, h1, ha, propagate_ok, propagate_error,
      Bool.false_eq_true, if_true, if_false, ite_true, ite_false] <;>
    rcases hf : acts.find? (fun h => mapContainsKey h.get_user_info "hey") with _ | h <;>
    simp only [hf] <;>
    first
      | (refine ⟨fun hx => ?_,
            fun hex => absurd hex.choose_spec.2
              (List.find?_eq_none.mp hf hex.choose hex.choose_spec.1)⟩
         exact FlowExit.noConfusion hx)
      | (refine ⟨fun _ => ⟨h, List.mem_of_find?_eq_some hf, ?_⟩, fun _ => ?_⟩ <;>
         first
           | (have hp := List.find?_some hf
              exact hp)
           | trivial)

/-- The final assertions of the verification test hold exactly when the first
returned handle whose user info contains `verification_key` maps it to
`verification_value`. -/
theorem verification_assert_iff (w : World) (acts : List NotificationHandle)
    (hr : w.register_result = Except.ok ()) (h0 : w.send_results 0 = Except.ok ())
    (ha : w.active_result = Except.ok acts) :
    ((IntegrationTests.test_notification_verification w).2 = FlowExit.ok ↔
      ∃ h, acts.find? (fun h => mapContainsKey h.get_user_info "verification_key") = some h ∧
        mapGet h.get_user_info "verification_key" = some "verification_value") := by
  unfold IntegrationTests.test_notification_verification
  simp only [hr, h0, ha, propagate_ok, propagate_error]
  rcases hf : acts.find? (fun h => mapContainsKey h.get_user_info "verification_key")
      with _ | h
  · simp only [hf]
    exact ⟨fun hx => FlowExit.noConfusion hx,
      fun hex => Option.noConfusion hex.choose_spec.1⟩
  · simp only [hf]
    rcases hv : mapGet h.get_user_info "verification_key" == some "verification_value"
        with _ | _
    · simp only [hv, Bool.false_eq_true, if_false, ite_false]
      refine ⟨fun hx => FlowExit.noConfusion hx, fun hex => ?_⟩
      rcases hex with ⟨h2, hsome, hval⟩
      cases Option.some.inj hsome
      rw [hval] at hv
      simp at hv
    · simp only [hv, if_true, ite_true]
      refine ⟨fun _ => ⟨h, rfl, eq_of_beq hv⟩, fun _ => ?_⟩
      trivial

/-- C3 (counterexample): the claim fails on the interactive example.  With
the enumeration returning a single handle whose user info maps `hey` to
`ho` — so no handle contains the pair `hey -> hi` — the assertion of the flow
still passes and `main` exits with `Ok`: the fatal assertion checks only the
presence of the key, not the key-value pair. -/
theorem C3_counterexample_value_not_checked :
    (ExampleTest.main heyWrongWorld).2 = FlowExit.ok ∧
    mapContainsKey heyWrongHandle.get_user_info "hey" = true ∧
    mapGet heyWrongHandle.get_user_info "hey" ≠ some "hi" := by
  refine ⟨rfl, rfl, ?_⟩
  decide

/-- C3 (amended): in the flows that send a notification carrying the
user-info pair `hey -> hi` (or the designated verification key), the fatal
assertion after the bounded wait checks that `get_active_notifications`
returned at least one handle whose user info contains the key: the
interactive example checks only the presence of the key `hey`, while the
verification test additionally asserts that the first handle found with
`verification_key` maps it to `verification_value`. -/
theorem C3_assertion_checks_key (w : World) (acts : List NotificationHandle) :
    (w.register_result = Except.ok () → w.send_results 0 = Except.ok () →
      w.join_send_ok = true → w.send_results 1 = Except.ok () →
      w.active_result = Except.ok acts →
      ((ExampleTest.main w).2 = FlowExit.ok ↔
        ∃ h ∈ acts, mapContainsKey h.get_user_info "hey" = true)) ∧
    (w.register_result = Except.ok () → w.send_results 0 = Except.ok () →
      w.active_result = Except.ok acts →
      ((IntegrationTests.test_notification_verification w).2 = FlowExit.ok ↔
        ∃ h, acts.find? (fun h => mapContainsKey h.get_user_info "verification_key") = some h ∧
          mapGet h.get_user_info "verification_key" = some "verification_value")) :=
  ⟨exampleTest_assert_iff w acts, verification_assert_iff w acts⟩

/-- C3 (witness): the amended claim evaluated on concrete oracles — with a
handle carrying `hey -> hi` the interactive example exits `Ok`, and with a
handle carrying `verification_key -> verification_value` the verification
test exits `Ok`. -/
theorem C3_assertion_checks_key_witness :
    (ExampleTest.main heyRightWorld).2 = FlowExit.ok ∧
    (IntegrationTests.test_notification_verification verificationWorld).2 = FlowExit.ok :=
  ⟨((C3_assertion_checks_key heyRightWorld [heyRightHandle]).1
      rfl rfl rfl rfl rfl).mpr ⟨heyRightHandle, by decide, by decide⟩,
   ((C3_assertion_checks_key verificationWorld [verificationHandle]).2
      rfl rfl rfl).mpr ⟨verificationHandle, by decide, by decide⟩⟩

/-- C4: the end-to-end interactive example registers exactly two
categories — `app.category.action` with three simple actions and
`app.category.textinput` with one text-input action — then sends a first
notification with title `my title`, body `my body` and category
`app.category.action`, then a second notification with user info
`hey -> hi` and category `app.category.textinput`, then waits 2 seconds
before enumerating the active notifications.  Stated as the exact event
trace of the flow (for any oracle whose register and send calls succeed),
together with the contents of the registered categories and of the two
notifications. -/
theorem C4_interactive_flow_sequence (w : World)
    (hr : w.register_result = Except.ok ()) (h0 : w.send_results 0 = Except.ok ())
    (hjs : w.join_send_ok = true) (h1 : w.send_results 1 = Except.ok ()) :
    (ExampleTest.main w).1 =
      [Event.create_manager (ExampleTest.bundle_id_of w.stdin_line),
       Event.register ExampleTest.categories] ++
      (if w.is_macos then
        [Event.ask_permission,
         if w.join_permission_ok then Event.log_perm_success else Event.log_perm_failure]
       else []) ++
      [Event.send ExampleTest.notification1, Event.send ExampleTest.notification2,
       Event.sleep_secs 2, Event.get_active] ∧
    List.length ExampleTest.categories = 2 ∧
    ExampleTest.categories.map (fun c => c.identifier) =
      ["app.category.action", "app.category.textinput"] ∧
    ExampleTest.categories.map (fun c => c.actions.countP isSimpleAction) = [3, 0] ∧
    ExampleTest.categories.map (fun c => c.actions.countP isTextInputAction) = [0, 1] ∧
    ExampleTest.notification1.titleOpt = some "my title" ∧
    ExampleTest.notification1.bodyOpt = some "my body" ∧
    ExampleTest.notification1.category_id = some "app.category.action" ∧
    ExampleTest.notification2.user_info = [("hey", "hi")] ∧
    ExampleTest.notification2.category_id = some "app.category.textinput" := by
  refine ⟨?_, ?_, ?_, ?_, ?_, ?_, ?_, ?_, ?_, ?_⟩
  · unfold ExampleTest.main
    rcases hm : w.is_macos with _ | _ <;>
    rcases hj : w.join_permission_ok with _ | _ <;>
    rcases ha : w.active_result with ea | acts <;>
      simp only [hm, hj, hjs, hr, h0, h1, ha, propagate_ok, propagate_error,
        Bool.false_eq_true, if_true, if_false, ite_true, ite_false] <;>
      first | rfl | (split <;> rfl)
  all_goals rfl

/-- C4 (witness): the trace statement evaluated on the all-success oracle
(macOS, empty standard input, so the default bundle id is used). -/
theorem C4_interactive_flow_sequence_witness :
    (ExampleTest.main okWorld).1 =
      [Event.create_manager "ai.gety", Event.register ExampleTest.categories,
       Event.ask_permission, Event.log_perm_success,
       Event.send ExampleTest.notification1, Event.send ExampleTest.notification2,
       Event.sleep_secs 2, Event.get_active] :=
  (C4_interactive_flow_sequence okWorld rfl rfl rfl rfl).1.trans rfl

/-
Elementary facts about `List.dropWhile`, used to analyse `str::trim`.
-/

theorem dropWhile_all_nil {α : Type} {p : α → Bool} :
    ∀ {l : List α}, (∀ c ∈ l, p c = true) → l.dropWhile p = [] := by
  intro l h
  induction l with
  | nil => rfl
  | cons a t ih =>
      have ha := h a (List.mem_cons_self a t)
      rw [List.dropWhile_cons, ha]
      simp only [if_true, ite_true]
      exact ih fun c hc => h c (List.mem_cons_of_mem a hc)

theorem dropWhile_head_false {α : Type} {p : α → Bool} :
    ∀ {l : List α} {a : α} {t : List α}, l.dropWhile p = a :: t → p a = false := by
  intro l
  induction l with
  | nil => intro a t h; cases h
  | cons b u ih =>
      intro a t h
      rw [List.dropWhile_cons] at h
      cases hpb : p b with
      | true =>
          rw [hpb] at h
          simp only [if_true, ite_true] at h
          exact ih h
      | false =>
          rw [hpb] at h
          simp only [Bool.false_eq_true, if_false, ite_false] at h
          cases h
          exact hpb

theorem dropWhile_decomp {α : Type} (p : α → Bool) :
    ∀ l : List α, ∃ s, (∀ c ∈ s, p c = true) ∧ l = s ++ l.dropWhile p := by
  intro l
  induction l with
  | nil => exact ⟨[], fun c hc => absurd hc (List.not_mem_nil c), rfl⟩
  | cons b u ih =>
      cases hpb : p b with
      | false =>
          refine ⟨[], fun c hc => absurd hc (List.not_mem_nil c), ?_⟩
          rw [List.dropWhile_cons, hpb]
          simp
      | true =>
          rcases ih with ⟨s, hs, hdec⟩
          refine ⟨b :: s, ?_, ?_⟩
          · intro c hc
            rcases List.mem_cons.mp hc with rfl | hc2
            · exact hpb
            · exact hs c hc2
          · rw [List.dropWhile_cons, hpb]
            simp only [if_true, ite_true, List.cons_append, List.cons.injEq, true_and]
            exact hdec

theorem dropWhile_ne_nil {α : Type} {p : α → Bool} {l : List α} {c : α}
    (hc : c ∈ l) (hpc : p c = false) : l.dropWhile p ≠ [] := by
  intro hnil
  rcases dropWhile_decomp p l with ⟨s, hs, hdec⟩
  rw [hnil, List.append_nil] at hdec
  rw [hdec] at hc
  rw [hs c hc] at hpc
  cases hpc

/-
Facts about the embedded `str::trim`.
-/

theorem trimChars_of_blank {l : List Char}
    (h : ∀ c ∈ l, ExampleTest.rustIsWhitespace c = true) :
    ExampleTest.trimChars l = [] := by
  unfold ExampleTest.trimChars
  rw [dropWhile_all_nil h]
  rfl

theorem trimChars_reverse_eq (l : List Char) :
    (ExampleTest.trimChars l).reverse =
      ((l.dropWhile ExampleTest.rustIsWhitespace).reverse).dropWhile
        ExampleTest.rustIsWhitespace := by
  unfold ExampleTest.trimChars
  rw [List.reverse_reverse]

theorem trimChars_prefix_of_dropWhile (l : List Char) :
    ∃ suf, (∀ c ∈ suf, ExampleTest.rustIsWhitespace c = true) ∧
      l.dropWhile ExampleTest.rustIsWhitespace = ExampleTest.trimChars l ++ suf := by
  rcases dropWhile_decomp ExampleTest.rustIsWhitespace
      ((l.dropWhile ExampleTest.rustIsWhitespace).reverse) with ⟨sufr, hsufr, h2⟩
  refine ⟨sufr.reverse, ?_, ?_⟩
  · intro c hc
    exact hsufr c (List.mem_reverse.mp hc)
  · have h3 := congrArg List.reverse h2
    rw [List.reverse_reverse, List.reverse_append] at h3
    rw [h3, ← trimChars_reverse_eq, List.reverse_reverse]

theorem trimChars_decomp (l : List Char) :
    ∃ pre suf, (∀ c ∈ pre, ExampleTest.rustIsWhitespace c = true) ∧
      (∀ c ∈ suf, ExampleTest.rustIsWhitespace c = true) ∧
      l = pre ++ ExampleTest.trimChars l ++ suf := by
  rcases dropWhile_decomp ExampleTest.rustIsWhitespace l with ⟨pre, hpre, h1⟩
  rcases trimChars_prefix_of_dropWhile l with ⟨suf, hsuf, h2⟩
  refine ⟨pre, suf, hpre, hsuf, ?_⟩
  rw [List.append_assoc, ← h2, ← h1]

theorem trimChars_head_not_ws {l : List Char} {a : Char} {t : List Char}
    (h : ExampleTest.trimChars l = a :: t) :
    ExampleTest.rustIsWhitespace a = false := by
  rcases trimChars_prefix_of_dropWhile l with ⟨suf, _, h2⟩
  rw [h] at h2
  exact dropWhile_head_false h2

theorem trimChars_last_not_ws {l : List Char} {a : Char} {t : List Char}
    (h : (ExampleTest.trimChars l).reverse = a :: t) :
    ExampleTest.rustIsWhitespace a = false := by
  rw [trimChars_reverse_eq] at h
  exact dropWhile_head_false h

theorem trimChars_ne_nil {l : List Char} {c : Char} (hc : c ∈ l)
    (hpc : ExampleTest.rustIsWhitespace c = false) :
    ExampleTest.trimChars l ≠ [] := by
  intro hnil
  have h1 : l.dropWhile ExampleTest.rustIsWhitespace ≠ [] := dropWhile_ne_nil hc hpc
  rcases he : l.dropWhile ExampleTest.rustIsWhitespace with _ | ⟨a, t⟩
  · exact h1 he
  · have ha : ExampleTest.rustIsWhitespace a = false := dropWhile_head_false he
    have hmem : a ∈ (l.dropWhile ExampleTest.rustIsWhitespace).reverse := by
      rw [he]
      exact List.mem_reverse.mpr (List.mem_cons_self a t)
    have h2 := dropWhile_ne_nil hmem ha
    apply h2
    rw [← trimChars_reverse_eq, hnil]
    rfl

theorem bundle_id_of_blank {line : String}
    (h : ∀ c ∈ line.data, ExampleTest.rustIsWhitespace c = true) :
    ExampleTest.bundle_id_of line = "ai.gety" := by
  unfold ExampleTest.bundle_id_of ExampleTest.rustTrim
  rw [trimChars_of_blank h]
  rfl

theorem bundle_id_of_nonblank {line : String} {c : Char} (hc : c ∈ line.data)
    (hpc : ExampleTest.rustIsWhitespace c = false) :
    ExampleTest.bundle_id_of line = ExampleTest.rustTrim line := by
  unfold ExampleTest.bundle_id_of
  rcases he : ExampleTest.trimChars line.data with _ | ⟨a, t⟩
  · exact absurd he (trimChars_ne_nil hc hpc)
  · have : (ExampleTest.rustTrim line).data = a :: t := by
      unfold ExampleTest.rustTrim
      rw [he]
    rw [this]
    rfl

/-- C5 (counterexample): the claim fails at the whitespace-only input line
`" \n"`.  The line read at the prompt is not empty, yet the flow does not
proceed with the entered value: it falls back to the default `ai.gety`. -/
theorem C5_counterexample_whitespace_line :
    ExampleTest.bundle_id_of " \n" = "ai.gety" ∧
    (" \n" : String) ≠ "" ∧
    ExampleTest.bundle_id_of " \n" ≠ " \n" := by
  refine ⟨?_, ?_, ?_⟩ <;> decide

/-- C5 (amended): in the interactive example, if the line read at the
bundle-id prompt is blank — empty or consisting only of whitespace — the
flow proceeds with the literal bundle id `ai.gety`; otherwise it proceeds
with the entered value with its leading and trailing whitespace stripped. -/
theorem C5_bundle_id_default_or_trimmed (line : String) :
    ((∀ c ∈ line.data, ExampleTest.rustIsWhitespace c = true) →
      ExampleTest.bundle_id_of line = "ai.gety") ∧
    ((∃ c ∈ line.data, ExampleTest.rustIsWhitespace c = false) →
      ExampleTest.bundle_id_of line = ExampleTest.rustTrim line) :=
  ⟨fun h => bundle_id_of_blank h,
   fun hex => bundle_id_of_nonblank hex.choose_spec.1 hex.choose_spec.2⟩

/-- C5 (witness): the empty line yields the default, and a whitespace-padded
line yields its trimmed value. -/
theorem C5_bundle_id_default_or_trimmed_witness :
    ExampleTest.bundle_id_of "" = "ai.gety" ∧
    ExampleTest.bundle_id_of " my.bundle \n" = ExampleTest.rustTrim " my.bundle \n" :=
  ⟨(C5_bundle_id_default_or_trimmed "").1 (by decide),
   (C5_bundle_id_default_or_trimmed " my.bundle \n").2 ⟨'m', by decide, by decide⟩⟩

/-- C9: at the bundle-id prompt the input line is trimmed before the
emptiness check: every line consisting only of whitespace characters
(including the bare newline) falls back to the default `ai.gety`, and for
every non-blank line the bundle id actually used is nonempty, the line
splits as whitespace ++ used id ++ whitespace, and the used id neither
starts nor ends with a whitespace character. -/
theorem C9_trim_before_empty_check (line : String) :
    ((∀ c ∈ line.data, ExampleTest.rustIsWhitespace c = true) →
      ExampleTest.bundle_id_of line = "ai.gety") ∧
    ((∃ c ∈ line.data, ExampleTest.rustIsWhitespace c = false) →
      (ExampleTest.bundle_id_of line).data ≠ [] ∧
      (∃ pre suf, (∀ c ∈ pre, ExampleTest.rustIsWhitespace c = true) ∧
        (∀ c ∈ suf, ExampleTest.rustIsWhitespace c = true) ∧
        line.data = pre ++ (ExampleTest.bundle_id_of line).data ++ suf) ∧
      (∀ a t, (ExampleTest.bundle_id_of line).data = a :: t →
        ExampleTest.rustIsWhitespace a = false) ∧
      (∀ a t, (ExampleTest.bundle_id_of line).data.reverse = a :: t →
        ExampleTest.rustIsWhitespace a = false)) := by
  constructor
  · exact fun h => bundle_id_of_blank h
  · intro hex
    rcases hex with ⟨c, hcm, hcw⟩
    have heq : ExampleTest.bundle_id_of line = ExampleTest.rustTrim line :=
      bundle_id_of_nonblank hcm hcw
    have hdata : (ExampleTest.bundle_id_of line).data = ExampleTest.trimChars line.data := by
      rw [heq]
      rfl
    refine ⟨?_, ?_, ?_, ?_⟩
    · rw [hdata]
      exact trimChars_ne_nil hcm hcw
    · rcases trimChars_decomp line.data with ⟨pre, suf, hpre, hsuf, hdec⟩
      refine ⟨pre, suf, hpre, hsuf, ?_⟩
      rw [hdata]
      exact hdec
    · intro a t ht
      rw [hdata] at ht
      exact trimChars_head_not_ws ht
    · intro a t ht
      rw [hdata] at ht
      exact trimChars_last_not_ws ht

/-- C9 (witness): the bare newline falls back to the default, and a
whitespace-padded non-blank line yields a nonempty bundle id. -/
theorem C9_trim_before_empty_check_witness :
    ExampleTest.bundle_id_of "\n" = "ai.gety" ∧
    (ExampleTest.bundle_id_of " my.app \n").data ≠ [] :=
  ⟨(C9_trim_before_empty_check "\n").1 (by decide),
   ((C9_trim_before_empty_check " my.app \n").2 ⟨'m', by decide, by decide⟩).1⟩

/-
Bundle identifier actually handed to `get_notification_manager`, per flow
(used by claim C6).
-/

theorem usedBundleId_manager_creation (w : World) :
    usedBundleId (IntegrationTests.test_notification_manager_creation w).1 =
      some (IntegrationTests.get_test_bundle_id w) := rfl

theorem usedBundleId_category_registration (w : World) :
    usedBundleId (IntegrationTests.test_category_registration w).1 =
      some (IntegrationTests.get_test_bundle_id w) := by
  unfold IntegrationTests.test_category_registration
  rcases hr : w.register_result with _ | _ <;>
    simp only [hr, propagate_error, propagate_ok] <;> rfl

theorem usedBundleId_permission_request (w : World) (hm : w.is_macos = true) :
    usedBundleId (IntegrationTests.test_permission_request w).1 =
      some (IntegrationTests.get_test_bundle_id w) := by
  unfold IntegrationTests.test_permission_request
  rcases hr : w.register_result with _ | _ <;>
  rcases hp : w.permission_result with _ | _ <;>
    simp only [hm, hr, hp, propagate_error, propagate_ok, if_true, ite_true] <;> rfl

theorem usedBundleId_basic_send (w : World) :
    usedBundleId (IntegrationTests.test_basic_notification_send w).1 =
      some (IntegrationTests.get_test_bundle_id w) := by
  unfold IntegrationTests.test_basic_notification_send
  rcases hr : w.register_result with _ | _ <;>
  rcases h0 : w.send_results 0 with _ | _ <;>
    simp only [hr, h0, propagate_error, propagate_ok] <;> rfl

theorem usedBundleId_with_user_info (w : World) :
    usedBundleId (IntegrationTests.test_notification_with_user_info w).1 =
      some (IntegrationTests.get_test_bundle_id w) := by
  unfold IntegrationTests.test_notification_with_user_info
  rcases hr : w.register_result with _ | _ <;>
  rcases h0 : w.send_results 0 with _ | _ <;>
    simp only [hr, h0, propagate_error, propagate_ok] <;> rfl

theorem usedBundleId_get_active (w : World) :
    usedBundleId (IntegrationTests.test_get_active_notifications w).1 =
      some (IntegrationTests.get_test_bundle_id w) := by
  unfold IntegrationTests.test_get_active_notifications
  rcases hr : w.register_result with _ | _ <;>
  rcases h0 : w.send_results 0 with _ | _ <;>
  rcases ha : w.active_result with _ | _ <;>
    simp only [hr, h0, ha, propagate_error, propagate_ok] <;> rfl

theorem usedBundleId_verification (w : World) :
    usedBundleId (IntegrationTests.test_notification_verification w).1 =
      some (IntegrationTests.get_test_bundle_id w) := by
  unfold IntegrationTests.test_notification_verification
  rcases hr : w.register_result with _ | _ <;>
  rcases h0 : w.send_results 0 with _ | _ <;>
  rcases ha : w.active_result with _ | acts <;>
    simp only [hr, h0, ha, propagate_error, propagate_ok] <;>
    first
      | rfl
      | (split <;> first | rfl | (split <;> rfl))

theorem usedBundleId_integration_full (w : World) :
    usedBundleId (IntegrationTests.test_integration_full_flow w).1 =
      some (IntegrationTests.get_test_bundle_id w) := by
  unfold IntegrationTests.test_integration_full_flow
  rcases hr : w.register_result with _ | _ <;>
  rcases hm : w.is_macos with _ | _ <;>
  rcases hp : w.permission_result with _ | _ <;>
  rcases h0 : w.send_results 0 with _ | _ <;>
  rcases h1 : w.send_results 1 with _ | _ <;>
  rcases ha : w.active_result with _ | acts <;>
    simp only [hr, hm, hp, h0, h1, ha, propagate_error, propagate_ok] <;>
    first
      | rfl
      | (split <;> rfl)

theorem usedBundleId_long_text (w : World) :
    usedBundleId (IntegrationTests.test_long_text_notification w).1 =
      some (IntegrationTests.get_test_bundle_id w) := by
  unfold IntegrationTests.test_long_text_notification
  rcases h0 : w.send_results 0 with _ | _ <;>
    simp only [h0, propagate_error, propagate_ok] <;> rfl

theorem usedBundleId_example_test (w : World) :
    usedBundleId (ExampleTest.main w).1 =
      some (ExampleTest.bundle_id_of w.stdin_line) := by
  unfold ExampleTest.main
  rcases hr : w.register_result with _ | _ <;>
  rcases hm : w.is_macos with _ | _ <;>
  rcases hj : w.join_permission_ok with _ | _ <;>
  rcases h0 : w.send_results 0 with _ | _ <;>
  rcases hjs : w.join_send_ok with _ | _ <;>
  rcases h1 : w.send_results 1 with _ | _ <;>
  rcases ha : w.active_result with _ | acts <;>
    simp only [hr, hm, hj, h0, hjs, h1, ha, propagate_error, propagate_ok,
      Bool.false_eq_true, if_true, if_false, ite_true, ite_false] <;>
    first
      | rfl
      | (split <;> rfl)

theorem usedBundleId_example_basic (w : World) :
    usedBundleId (ExampleBasic.main w).1 =
      some (ExampleBasic.get_test_bundle_id w) := by
  unfold ExampleBasic.main
  rcases hr : w.register_result with _ | _ <;>
  rcases hp : w.permission_state with _ | b <;>
  (try cases b) <;>
  rcases hq : w.permission_result with _ | g <;>
  (try cases g) <;>
  rcases h0 : w.send_results 0 with _ | _ <;>
  rcases h1 : w.send_results 1 with _ | _ <;>
  rcases h2 : w.send_results 2 with _ | _ <;>
    simp only [hr, hp, hq, h0, h1, h2, propagate_error, propagate_ok] <;> rfl

theorem usedBundleId_example_permission (w : World) :
    usedBundleId (ExamplePermission.main w).1 =
      some (ExamplePermission.get_test_bundle_id w) := by
  unfold ExamplePermission.main
  rcases hr : w.register_result with _ | _ <;>
  rcases hm : w.is_macos with _ | _ <;>
  rcases hp : w.permission_result with _ | _ <;>
    simp only [hr, hm, hp, propagate_error, propagate_ok] <;> rfl

theorem usedBundleId_example_active (w : World) :
    usedBundleId (ExampleActive.main w).1 =
      some (ExampleActive.get_test_bundle_id w) := by
  unfold ExampleActive.main
  rcases hr : w.register_result with _ | _ <;>
  rcases h0 : w.send_results 0 with _ | _ <;>
  rcases h1 : w.send_results 1 with _ | _ <;>
  rcases ha : w.active_result with _ | _ <;>
    simp only [hr, h0, h1, ha, propagate_error, propagate_ok] <;> rfl

theorem usedBundleId_example_full (w : World) :
    usedBundleId (ExampleFull.main w).1 =
      some (ExampleFull.get_test_bundle_id w) := by
  unfold ExampleFull.main
  rcases hr : w.register_result with _ | _ <;>
  rcases hm : w.is_macos with _ | _ <;>
  rcases hp : w.permission_result with _ | _ <;>
  rcases h0 : w.send_results 0 with _ | _ <;>
  rcases h1 : w.send_results 1 with _ | _ <;>
  rcases ha : w.active_result with _ | _ <;>
  rcases h2 : w.send_results 2 with _ | _ <;>
    simp only [hr, hm, hp, h0, h1, ha, h2, propagate_error, propagate_ok] <;> rfl

theorem usedBundleId_example_interactive (w : World) :
    usedBundleId (ExampleInteractive.main w).1 =
      some (ExampleInteractive.get_test_bundle_id w) := by
  unfold ExampleInteractive.main
  rcases hr : w.register_result with _ | _ <;>
  rcases h0 : w.send_results 0 with _ | _ <;>
  rcases h1 : w.send_results 1 with _ | _ <;>
    simp only [hr, h0, h1, propagate_error, propagate_ok] <;> rfl

/-- C6 (counterexample): the claim fails on the interactive example
`examples/test.rs`.  With `TEST_BUNDLE_ID` set to `custom.bundle` and an
empty standard input, that program creates its manager with the hardcoded
default `ai.gety`: the environment variable does not override anything
there. -/
theorem C6_counterexample_interactive_ignores_env :
    usedBundleId (ExampleTest.main envOverrideWorld).1 = some "ai.gety" ∧
    envOverrideWorld.env_test_bundle_id = some "custom.bundle" ∧
    ("ai.gety" : String) ≠ "custom.bundle" := by
  refine ⟨?_, rfl, ?_⟩
  · rfl
  · decide

/-- C6 (amended): in every test/example program that reads
`TEST_BUNDLE_ID` — the integration tests and the five standalone examples —
the value of the variable, when set, is used verbatim as the bundle id handed to
`get_notification_manager`, and the hardcoded default of the program is used
when it is unset.  The interactive example `examples/test.rs` is the
exception: its bundle id is computed from standard input alone and the
environment variable is ignored. -/
theorem C6_env_override_except_interactive (w : World) :
    (∀ v, w.env_test_bundle_id = some v →
      IntegrationTests.get_test_bundle_id w = v ∧
      ExampleBasic.get_test_bundle_id w = v ∧
      ExamplePermission.get_test_bundle_id w = v ∧
      ExampleActive.get_test_bundle_id w = v ∧
      ExampleFull.get_test_bundle_id w = v ∧
      ExampleInteractive.get_test_bundle_id w = v) ∧
    (w.env_test_bundle_id = none →
      IntegrationTests.get_test_bundle_id w = "ai.gety" ∧
      ExampleBasic.get_test_bundle_id w = "ai.gety.test.basic" ∧
      ExamplePermission.get_test_bundle_id w = "ai.gety.test.permission" ∧
      ExampleActive.get_test_bundle_id w = "ai.gety.test.active" ∧
      ExampleFull.get_test_bundle_id w = "ai.gety.test.full" ∧
      ExampleInteractive.get_test_bundle_id w = "ai.gety.test.interactive") ∧
    usedBundleId (IntegrationTests.test_notification_manager_creation w).1 =
      some (IntegrationTests.get_test_bundle_id w) ∧
    usedBundleId (IntegrationTests.test_category_registration w).1 =
      some (IntegrationTests.get_test_bundle_id w) ∧
    (w.is_macos = true →
      usedBundleId (IntegrationTests.test_permission_request w).1 =
        some (IntegrationTests.get_test_bundle_id w)) ∧
    usedBundleId (IntegrationTests.test_basic_notification_send w).1 =
      some (IntegrationTests.get_test_bundle_id w) ∧
    usedBundleId (IntegrationTests.test_notification_with_user_info w).1 =
      some (IntegrationTests.get_test_bundle_id w) ∧
    usedBundleId (IntegrationTests.test_get_active_notifications w).1 =
      some (IntegrationTests.get_test_bundle_id w) ∧
    usedBundleId (IntegrationTests.test_notification_verification w).1 =
      some (IntegrationTests.get_test_bundle_id w) ∧
    usedBundleId (IntegrationTests.test_integration_full_flow w).1 =
      some (IntegrationTests.get_test_bundle_id w) ∧
    usedBundleId (IntegrationTests.test_long_text_notification w).1 =
      some (IntegrationTests.get_test_bundle_id w) ∧
    usedBundleId (ExampleBasic.main w).1 = some (ExampleBasic.get_test_bundle_id w) ∧
    usedBundleId (ExamplePermission.main w).1 = some (ExamplePermission.get_test_bundle_id w) ∧
    usedBundleId (ExampleActive.main w).1 = some (ExampleActive.get_test_bundle_id w) ∧
    usedBundleId (ExampleFull.main w).1 = some (ExampleFull.get_test_bundle_id w) ∧
    usedBundleId (ExampleInteractive.main w).1 = some (ExampleInteractive.get_test_bundle_id w) ∧
    usedBundleId (ExampleTest.main w).1 = some (ExampleTest.bundle_id_of w.stdin_line) := by
  refine ⟨?_, ?_, usedBundleId_manager_creation w, usedBundleId_category_registration w,
    usedBundleId_permission_request w, usedBundleId_basic_send w,
    usedBundleId_with_user_info w, usedBundleId_get_active w,
    usedBundleId_verification w, usedBundleId_integration_full w,
    usedBundleId_long_text w, usedBundleId_example_basic w,
    usedBundleId_example_permission w, usedBundleId_example_active w,
    usedBundleId_example_full w, usedBundleId_example_interactive w,
    usedBundleId_example_test w⟩
  · intro v hv
    refine ⟨?_, ?_, ?_, ?_, ?_, ?_⟩ <;>
      simp [IntegrationTests.get_test_bundle_id, ExampleBasic.get_test_bundle_id,
        ExamplePermission.get_test_bundle_id, ExampleActive.get_test_bundle_id,
        ExampleFull.get_test_bundle_id, ExampleInteractive.get_test_bundle_id, hv]
  · intro hv
    refine ⟨?_, ?_, ?_, ?_, ?_, ?_⟩ <;>
      simp [IntegrationTests.get_test_bundle_id, ExampleBasic.get_test_bundle_id,
        ExamplePermission.get_test_bundle_id, ExampleActive.get_test_bundle_id,
        ExampleFull.get_test_bundle_id, ExampleInteractive.get_test_bundle_id, hv,
        IntegrationTests.DEFAULT_BUNDLE_ID, ExampleBasic.DEFAULT_BUNDLE_ID,
        ExamplePermission.DEFAULT_BUNDLE_ID, ExampleActive.DEFAULT_BUNDLE_ID,
        ExampleFull.DEFAULT_BUNDLE_ID, ExampleInteractive.DEFAULT_BUNDLE_ID]

/-- C6 (witness): with `TEST_BUNDLE_ID=custom.bundle` every env-reading
program uses `custom.bundle`; with it unset the basic-notification example
uses its own default; and the interactive example uses the
standard-input-derived id even when the variable is set. -/
theorem C6_env_override_witness :
    IntegrationTests.get_test_bundle_id envOverrideWorld = "custom.bundle" ∧
    ExampleBasic.get_test_bundle_id envOverrideWorld = "custom.bundle" ∧
    ExampleBasic.get_test_bundle_id okWorld = "ai.gety.test.basic" ∧
    usedBundleId (ExampleTest.main envOverrideWorld).1 = some "ai.gety" :=
  ⟨((C6_env_override_except_interactive envOverrideWorld).1 "custom.bundle" rfl).1,
   ((C6_env_override_except_interactive envOverrideWorld).1 "custom.bundle" rfl).2.1,
   ((C6_env_override_except_interactive okWorld).2.1 rfl).2.1,
   ((C6_env_override_except_interactive
      envOverrideWorld).2.2.2.2.2.2.2.2.2.2.2.2.2.2.2.2).trans rfl⟩

/-
Permission-request events per flow on a non-macOS platform (used by claim
C7).
-/

theorem noAsk_manager_creation (w : World) :
    countAsks (IntegrationTests.test_notification_manager_creation w).1 = 0 := rfl

theorem noAsk_category_registration (w : World) :
    countAsks (IntegrationTests.test_category_registration w).1 = 0 := by
  unfold IntegrationTests.test_category_registration
  rcases hr : w.register_result with _ | _ <;>
    simp only [hr, propagate_error, propagate_ok] <;> rfl

theorem noAsk_nonmacos_permission_request (w : World) (hm : w.is_macos = false) :
    countAsks (IntegrationTests.test_permission_request w).1 = 0 := by
  unfold IntegrationTests.test_permission_request
  simp only [hm, Bool.false_eq_true, if_false, ite_false]
  rfl

theorem noAsk_basic_send (w : World) :
    countAsks (IntegrationTests.test_basic_notification_send w).1 = 0 := by
  unfold IntegrationTests.test_basic_notification_send
  rcases hr : w.register_result with _ | _ <;>
  rcases h0 : w.send_results 0 with _ | _ <;>
    simp only [hr, h0, propagate_error, propagate_ok] <;> rfl

theorem noAsk_with_user_info (w : World) :
    countAsks (IntegrationTests.test_notification_with_user_info w).1 = 0 := by
  unfold IntegrationTests.test_notification_with_user_info
  rcases hr : w.register_result with _ | _ <;>
  rcases h0 : w.send_results 0 with _ | _ <;>
    simp only [hr, h0, propagate_error, propagate_ok] <;> rfl

theorem noAsk_get_active (w : World) :
    countAsks (IntegrationTests.test_get_active_notifications w).1 = 0 := by
  unfold IntegrationTests.test_get_active_notifications
  rcases hr : w.register_result with _ | _ <;>
  rcases h0 : w.send_results 0 with _ | _ <;>
  rcases ha : w.active_result with _ | _ <;>
    simp only [hr, h0, ha, propagate_error, propagate_ok] <;> rfl

theorem noAsk_verification (w : World) :
    countAsks (IntegrationTests.test_notification_verification w).1 = 0 := by
  unfold IntegrationTests.test_notification_verification
  rcases hr : w.register_result with _ | _ <;>
  rcases h0 : w.send_results 0 with _ | _ <;>
  rcases ha : w.active_result with _ | acts <;>
    simp only [hr, h0, ha, propagate_error, propagate_ok] <;>
    first
      | rfl
      | (split <;> first | rfl | (split <;> rfl))

theorem noAsk_nonmacos_integration_full (w : World) (hm : w.is_macos = false) :
    countAsks (IntegrationTests.test_integration_full_flow w).1 = 0 := by
  unfold IntegrationTests.test_integration_full_flow
  rcases hr : w.register_result with _ | _ <;>
  rcases h0 : w.send_results 0 with _ | _ <;>
  rcases h1 : w.send_results 1 with _ | _ <;>
  rcases ha : w.active_result with _ | acts <;>
    simp only [hm, hr, h0, h1, ha, propagate_error, propagate_ok,
      Bool.false_eq_true, if_false, ite_false] <;>
    first
      | rfl
      | (split <;> rfl)

theorem noAsk_long_text (w : World) :
    countAsks (IntegrationTests.test_long_text_notification w).1 = 0 := by
  unfold IntegrationTests.test_long_text_notification
  rcases h0 : w.send_results 0 with _ | _ <;>
    simp only [h0, propagate_error, propagate_ok] <;> rfl

theorem noAsk_nonmacos_example_test (w : World) (hm : w.is_macos = false) :
    countAsks (ExampleTest.main w).1 = 0 := by
  unfold ExampleTest.main
  rcases hr : w.register_result with _ | _ <;>
  rcases h0 : w.send_results 0 with _ | _ <;>
  rcases hjs : w.join_send_ok with _ | _ <;>
  rcases h1 : w.send_results 1 with _ | _ <;>
  rcases ha : w.active_result with _ | acts <;>
    simp only [hm, hr, h0, hjs, h1, ha, propagate_error, propagate_ok,
      Bool.false_eq_true, if_true, if_false, ite_true, ite_false] <;>
    first
      | rfl
      | (split <;> rfl)

theorem noAsk_nonmacos_example_permission (w : World) (hm : w.is_macos = false) :
    countAsks (ExamplePermission.main w).1 = 0 := by
  unfold ExamplePermission.main
  rcases hr : w.register_result with _ | _ <;>
    simp only [hm, hr, propagate_error, propagate_ok,
      Bool.false_eq_true, if_false, ite_false] <;> rfl

theorem noAsk_example_active (w : World) :
    countAsks (ExampleActive.main w).1 = 0 := by
  unfold ExampleActive.main
  rcases hr : w.register_result with _ | _ <;>
  rcases h0 : w.send_results 0 with _ | _ <;>
  rcases h1 : w.send_results 1 with _ | _ <;>
  rcases ha : w.active_result with _ | _ <;>
    simp only [hr, h0, h1, ha, propagate_error, propagate_ok] <;> rfl

theorem noAsk_nonmacos_example_full (w : World) (hm : w.is_macos = false) :
    countAsks (ExampleFull.main w).1 = 0 := by
  unfold ExampleFull.main
  rcases hr : w.register_result with _ | _ <;>
  rcases h0 : w.send_results 0 with _ | _ <;>
  rcases h1 : w.send_results 1 with _ | _ <;>
  rcases ha : w.active_result with _ | _ <;>
  rcases h2 : w.send_results 2 with _ | _ <;>
    simp only [hm, hr, h0, h1, ha, h2, propagate_error, propagate_ok,
      Bool.false_eq_true, if_false, ite_false] <;> rfl

theorem noAsk_example_interactive (w : World) :
    countAsks (ExampleInteractive.main w).1 = 0 := by
  unfold ExampleInteractive.main
  rcases hr : w.register_result with _ | _ <;>
  rcases h0 : w.send_results 0 with _ | _ <;>
  rcases h1 : w.send_results 1 with _ | _ <;>
    simp only [hr, h0, h1, propagate_error, propagate_ok] <;> rfl

/-- In the basic-notification example the permission request runs on every
platform: whenever the permission state is not granted, the flow performs
the first-time request — there is no `cfg(target_os = "macos")` guard. -/
theorem ask_example_basic (w : World)
    (hr : w.register_result = Except.ok ()) (hs : w.permission_state = Except.ok false) :
    countAsks (ExampleBasic.main w).1 = 1 := by
  unfold ExampleBasic.main
  rcases hq : w.permission_result with _ | g <;>
  (try cases g) <;>
  rcases h0 : w.send_results 0 with _ | _ <;>
  rcases h1 : w.send_results 1 with _ | _ <;>
  rcases h2 : w.send_results 2 with _ | _ <;>
    simp only [hr, hs, hq, h0, h1, h2, propagate_error, propagate_ok, Bool.not_false,
      Bool.false_eq_true, if_true, if_false, ite_true, ite_false] <;> rfl

/-- C7 (counterexample): the claim fails on the basic-notification example.
On a non-macOS platform with the permission not yet granted, that example
still performs the first-time permission request: its permission call is not
guarded by any platform conditional. -/
theorem C7_counterexample_basic_asks_on_linux :
    countAsks (ExampleBasic.main linuxNoPermWorld).1 = 1 ∧
    linuxNoPermWorld.is_macos = false := ⟨rfl, rfl⟩

/-- C7 (amended): in every example and test flow except the
basic-notification example, the first-time permission request is performed
only when the program is compiled for macOS — on any other platform the
trace contains no permission request.  The basic-notification example
instead checks the permission state and performs the request on every
platform whenever the state is not granted. -/
theorem C7_permission_macos_only_except_basic (w : World) :
    (w.is_macos = false →
      countAsks (IntegrationTests.test_notification_manager_creation w).1 = 0 ∧
      countAsks (IntegrationTests.test_category_registration w).1 = 0 ∧
      countAsks (IntegrationTests.test_permission_request w).1 = 0 ∧
      countAsks (IntegrationTests.test_basic_notification_send w).1 = 0 ∧
      countAsks (IntegrationTests.test_notification_with_user_info w).1 = 0 ∧
      countAsks (IntegrationTests.test_get_active_notifications w).1 = 0 ∧
      countAsks (IntegrationTests.test_notification_verification w).1 = 0 ∧
      countAsks (IntegrationTests.test_integration_full_flow w).1 = 0 ∧
      countAsks (IntegrationTests.test_long_text_notification w).1 = 0 ∧
      countAsks (ExampleTest.main w).1 = 0 ∧
      countAsks (ExamplePermission.main w).1 = 0 ∧
      countAsks (ExampleActive.main w).1 = 0 ∧
      countAsks (ExampleFull.main w).1 = 0 ∧
      countAsks (ExampleInteractive.main w).1 = 0) ∧
    (w.register_result = Except.ok () → w.permission_state = Except.ok false →
      countAsks (ExampleBasic.main w).1 = 1) :=
  ⟨fun hm =>
    ⟨noAsk_manager_creation w, noAsk_category_registration w,
     noAsk_nonmacos_permission_request w hm, noAsk_basic_send w,
     noAsk_with_user_info w, noAsk_get_active w, noAsk_verification w,
     noAsk_nonmacos_integration_full w hm, noAsk_long_text w,
     noAsk_nonmacos_example_test w hm, noAsk_nonmacos_example_permission w hm,
     noAsk_example_active w, noAsk_nonmacos_example_full w hm,
     noAsk_example_interactive w⟩,
   fun hr hs => ask_example_basic w hr hs⟩

/-- C7 (witness): on the concrete non-macOS oracle no flow except the
basic-notification example performs a permission request, while that example
performs exactly one. -/
theorem C7_permission_macos_only_witness :
    countAsks (IntegrationTests.test_integration_full_flow linuxNoPermWorld).1 = 0 ∧
    countAsks (ExampleTest.main linuxNoPermWorld).1 = 0 ∧
    countAsks (ExampleBasic.main linuxNoPermWorld).1 = 1 :=
  ⟨((C7_permission_macos_only_except_basic linuxNoPermWorld).1 rfl).2.2.2.2.2.2.2.1,
   ((C7_permission_macos_only_except_basic linuxNoPermWorld).1 rfl).2.2.2.2.2.2.2.2.2.1,
   (C7_permission_macos_only_except_basic linuxNoPermWorld).2 rfl rfl⟩

/-- C10: in the macOS permission step of the interactive example, the error
branch (the failure log) is taken exactly when the spawned permission task
fails to join; an `Err` returned by the permission call itself is
discarded — the flow still logs the permission-request-completed success
message and continues to the sends; and after a join failure the flow also
continues. -/
theorem C10_permission_error_branch_join_only (w : World)
    (hm : w.is_macos = true) (hr : w.register_result = Except.ok ()) :
    (countPermFailureLogs (ExampleTest.main w).1 =
      if w.join_permission_ok then 0 else 1) ∧
    (w.join_permission_ok = true →
      countPermSuccessLogs (ExampleTest.main w).1 = 1 ∧
      1 ≤ countSends (ExampleTest.main w).1) ∧
    (∀ e, w.permission_result = Except.error e → w.join_permission_ok = true →
      countPermSuccessLogs (ExampleTest.main w).1 = 1 ∧
      countPermFailureLogs (ExampleTest.main w).1 = 0 ∧
      1 ≤ countSends (ExampleTest.main w).1) ∧
    (w.join_permission_ok = false →
      countPermFailureLogs (ExampleTest.main w).1 = 1 ∧
      countPermSuccessLogs (ExampleTest.main w).1 = 0 ∧
      1 ≤ countSends (ExampleTest.main w).1) := by
  refine ⟨?_, ?_, fun e hp hj => permNonfatal_example_test w e hm hr hj hp, ?_⟩
  · unfold ExampleTest.main
    rcases hj : w.join_permission_ok with _ | _ <;>
    rcases h0 : w.send_results 0 with _ | _ <;>
    rcases hjs : w.join_send_ok with _ | _ <;>
    rcases h1 : w.send_results 1 with _ | _ <;>
    rcases ha : w.active_result with _ | acts <;>
      simp only [hm, hr, hj, h0, hjs, h1, ha, propagate_error, propagate_ok,
        Bool.false_eq_true, if_true, if_false, ite_true, ite_false] <;>
      first
        | rfl
        | (split <;> rfl)
  · intro hj
    unfold ExampleTest.main
    rcases h0 : w.send_results 0 with _ | _ <;>
    rcases hjs : w.join_send_ok with _ | _ <;>
    rcases h1 : w.send_results 1 with _ | _ <;>
    rcases ha : w.active_result with _ | acts <;>
      simp only [hm, hr, hj, h0, hjs, h1, ha, propagate_error, propagate_ok,
        Bool.false_eq_true, if_true, if_false, ite_true, ite_false] <;>
      first
        | (refine ⟨?_, ?_⟩ <;>
           first | rfl | exact Nat.sub_eq_zero_iff_le.mp rfl)
        | (split <;> refine ⟨?_, ?_⟩ <;>
           first | rfl | exact Nat.sub_eq_zero_iff_le.mp rfl)
  · intro hj
    unfold ExampleTest.main
    rcases h0 : w.send_results 0 with _ | _ <;>
    rcases hjs : w.join_send_ok with _ | _ <;>
    rcases h1 : w.send_results 1 with _ | _ <;>
    rcases ha : w.active_result with _ | acts <;>
      simp only [hm, hr, hj, h0, hjs, h1, ha, propagate_error, propagate_ok,
        Bool.false_eq_true, if_true, if_false, ite_true, ite_false] <;>
      first
        | (refine ⟨?_, ?_, ?_⟩ <;>
           first | rfl | exact Nat.sub_eq_zero_iff_le.mp rfl)
        | (split <;> refine ⟨?_, ?_, ?_⟩ <;>
           first | rfl | exact Nat.sub_eq_zero_iff_le.mp rfl)

/-- C10 (witness): with a failing join the failure log appears exactly once
and the flow still sends; with a successful join and a failing inner
permission result the success message is logged and the flow still sends. -/
theorem C10_permission_error_branch_witness :
    countPermFailureLogs (ExampleTest.main joinFailWorld).1 = 1 ∧
    1 ≤ countSends (ExampleTest.main joinFailWorld).1 ∧
    countPermSuccessLogs (ExampleTest.main permDeniedWorld).1 = 1 ∧
    countPermFailureLogs (ExampleTest.main permDeniedWorld).1 = 0 :=
  ⟨((C10_permission_error_branch_join_only joinFailWorld rfl rfl).2.2.2 rfl).1,
   ((C10_permission_error_branch_join_only joinFailWorld rfl rfl).2.2.2 rfl).2.2,
   ((C10_permission_error_branch_join_only permDeniedWorld rfl rfl).2.2.1
      { msg := "permission denied" } rfl rfl).1,
   ((C10_permission_error_branch_join_only permDeniedWorld rfl rfl).2.2.1
      { msg := "permission denied" } rfl rfl).2.1⟩

/-- C1 (counterexample): the claim fails on `test_long_text_notification`.
Run with every external call succeeding, that test sends exactly one
notification — referencing category `app.category.action` — while its trace
contains no register event at all, so the send is not covered by any earlier
registration. -/
theorem C1_counterexample_long_text_send_unregistered :
    sendsCovered (IntegrationTests.test_long_text_notification okWorld).1 = false ∧
    countRegisters (IntegrationTests.test_long_text_notification okWorld).1 = 0 ∧
    countSends (IntegrationTests.test_long_text_notification okWorld).1 = 1 := by
  exact ⟨rfl, rfl, rfl⟩

/-- C1 (amended): in every example and test flow except the long-text
integration test, every `send_notification` call passes a notification whose
category identifier was included in a register call completed earlier on the
same manager handle — for every oracle, i.e. whatever the external calls
return.  The long-text integration test is the exception: it performs no
register call at all and sends one notification referencing
`app.category.action`. -/
theorem C1_sends_covered_except_long_text :
    (∀ w : World, sendsCovered (IntegrationTests.test_notification_manager_creation w).1 = true) ∧
    (∀ w : World, sendsCovered (IntegrationTests.test_category_registration w).1 = true) ∧
    (∀ w : World, sendsCovered (IntegrationTests.test_permission_request w).1 = true) ∧
    (∀ w : World, sendsCovered (IntegrationTests.test_basic_notification_send w).1 = true) ∧
    (∀ w : World, sendsCovered (IntegrationTests.test_notification_with_user_info w).1 = true) ∧
    (∀ w : World, sendsCovered (IntegrationTests.test_get_active_notifications w).1 = true) ∧
    (∀ w : World, sendsCovered (IntegrationTests.test_notification_verification w).1 = true) ∧
    (∀ w : World, sendsCovered (IntegrationTests.test_integration_full_flow w).1 = true) ∧
    (∀ w : World, sendsCovered (ExampleTest.main w).1 = true) ∧
    (∀ w : World, sendsCovered (ExampleBasic.main w).1 = true) ∧
    (∀ w : World, sendsCovered (ExamplePermission.main w).1 = true) ∧
    (∀ w : World, sendsCovered (ExampleActive.main w).1 = true) ∧
    (∀ w : World, sendsCovered (ExampleFull.main w).1 = true) ∧
    (∀ w : World, sendsCovered (ExampleInteractive.main w).1 = true) ∧
    (∀ w : World, countRegisters (IntegrationTests.test_long_text_notification w).1 = 0 ∧
      countSends (IntegrationTests.test_long_text_notification w).1 = 1) :=
  ⟨covered_manager_creation, covered_category_registration, covered_permission_request,
   covered_basic_send, covered_with_user_info, covered_get_active, covered_verification,
   covered_integration_full, covered_example_test, covered_example_basic,
   covered_example_permission, covered_example_active, covered_example_full,
   covered_example_interactive, long_text_never_registers⟩
